import Mathlib

/-!
Verification development for the as-distributors-cdk quote-request pipeline.

The pipeline's runtime code consists of two lambda modules:
* the email processor (Notification Dispatcher + Renderer): formatQuoteItemsHtml,
  formatQuoteItemsText, generateEmailContent, and an SQS-triggered handler;
* the api handler (Intake Handler + Payload Validator): validatePayload and an
  HTTP-triggered handler.

JavaScript runtime values reaching these functions come from JSON.parse, so we
embed them as a JSON-value type extended with an undefined value (the result of
reading an absent object property).  Property reads on null/undefined throw, as
in JavaScript; exceptions are modelled with Except, where the error string
stands for the thrown error.
-/

namespace ASD

/-- JavaScript values as they occur in this pipeline: JSON values plus the
undefined value produced by reading an absent property.  Numbers are modelled
as rationals (JSON numbers are decimal literals; no claim depends on
non-integer printing). -/
inductive JSValue where
  | null
  | undefined
  | bool (b : Bool)
  | num (q : Rat)
  | str (s : String)
  | arr (elems : List JSValue)
  | obj (fields : List (String × JSValue))

/-- JavaScript property access v[k].  Reading a property of null or undefined
throws a TypeError; reading an absent property of an object yields undefined;
primitive and array values have none of the properties this code reads. -/
def getProp : JSValue → String → Except String JSValue
  | .null, k => .error ("TypeError: Cannot read properties of null (reading " ++ k ++ ")")
  | .undefined, k => .error ("TypeError: Cannot read properties of undefined (reading " ++ k ++ ")")
  | .obj fields, k => .ok ((List.lookup k fields).getD .undefined)
  | _, _ => .ok .undefined

/-- JavaScript truthiness of the embedded values.  (NaN does not arise: values
come from JSON.parse.) -/
def truthy : JSValue → Bool
  | .null => false
  | .undefined => false
  | .bool b => b
  | .num q => q != 0
  | .str s => s != ""
  | .arr _ => true
  | .obj _ => true

/-- Whitespace as trimmed by JavaScript String.prototype.trim (the common
ASCII whitespace characters suffice for this development). -/
def isWs (c : Char) : Bool :=
  c == ' ' || c == '\r' || c == '\n' || c == '\t'

/-- Drop trailing whitespace from a character list. -/
def dropTrailingWs (cs : List Char) : List Char :=
  (cs.reverse.dropWhile isWs).reverse

/-- The character-list trim underlying JavaScript String.prototype.trim. -/
def trimChars (cs : List Char) : List Char :=
  dropTrailingWs (cs.dropWhile isWs)

/-- JavaScript String.prototype.trim on a string. -/
def jsTrimString (s : String) : String :=
  String.mk (trimChars s.data)

/-- Evaluating v.trim(): only strings have the method; calling it on a truthy
non-string throws a TypeError (reading .trim on null/undefined also throws). -/
def jsTrim : JSValue → Except String String
  | .str s => .ok (jsTrimString s)
  | .null => .error "TypeError: Cannot read properties of null (reading trim)"
  | .undefined => .error "TypeError: Cannot read properties of undefined (reading trim)"
  | _ => .error "TypeError: trim is not a function"

/-- Rendering of a number by JavaScript string interpolation, for the
integer-valued numbers the templates actually display.  Non-integer rationals
are printed as fractions; no claim depends on that case. -/
def jsNumToString (q : Rat) : String :=
  if q.den = 1 then toString q.num else toString q.num ++ "/" ++ toString q.den

/-- Characters admitted by the email pattern atom: anything that is neither
whitespace nor the at sign. -/
def isEmailChar (c : Char) : Bool :=
  !isWs c && c != '@'

/-- The test performed by the validator's email regular expression
(anchored: one or more non-space-non-at characters, an at sign, one or more
such characters, a dot, one or more such characters).  Equivalently: exactly
one at sign, no whitespace, a non-empty local part, and a dot strictly inside
the non-empty domain part. -/
def jsEmailRegexTest (s : String) : Bool :=
  let cs := s.data
  let a := cs.takeWhile (fun c => c != '@')
  let b := (cs.dropWhile (fun c => c != '@')).drop 1
  cs.count '@' == 1 &&
  cs.all (fun c => c == '@' || isEmailChar c) &&
  !a.isEmpty && !b.isEmpty &&
  ((b.drop 1).dropLast.contains '.')

/-! ### A model of JSON.parse and JSON.stringify

Both lambda handlers parse their input with JSON.parse (modelled as a partial
function to JSValue; a parse failure stands for the SyntaxError JSON.parse
throws) and the intake handler serializes the validated payload with
JSON.stringify. -/

/-- JSON whitespace. -/
def isJsonWs (c : Char) : Bool :=
  c == ' ' || c == '\r' || c == '\n' || c == '\t'

/-- Skip JSON whitespace. -/
def skipWs (cs : List Char) : List Char :=
  cs.dropWhile isJsonWs

/-- Decimal digit test. -/
def isDigitChar (c : Char) : Bool :=
  '0' ≤ c && c ≤ '9'

/-- Numeric value of a list of decimal digits. -/
def digitsToNat (ds : List Char) : Nat :=
  ds.foldl (fun acc c => 10 * acc + (c.toNat - 48)) 0

/-- Hexadecimal digit value, if any. -/
def hexVal (c : Char) : Option Nat :=
  let n := c.toNat
  if 48 ≤ n && n ≤ 57 then some (n - 48)
  else if 97 ≤ n && n ≤ 102 then some (n - 87)
  else if 65 ≤ n && n ≤ 70 then some (n - 55)
  else none

/-- Parse the remainder of a JSON string literal (the opening quote already
consumed), handling the escape sequences JSON.parse accepts. -/
def parseStringBody : Nat → List Char → List Char → Option (String × List Char)
  | 0, _, _ => none
  | _ + 1, acc, '"' :: rest => some (String.mk acc.reverse, rest)
  | fuel + 1, acc, '\\' :: e :: rest =>
    match e with
    | '"' => parseStringBody fuel ('"' :: acc) rest
    | '\\' => parseStringBody fuel ('\\' :: acc) rest
    | '/' => parseStringBody fuel ('/' :: acc) rest
    | 'n' => parseStringBody fuel ('\n' :: acc) rest
    | 't' => parseStringBody fuel ('\t' :: acc) rest
    | 'r' => parseStringBody fuel ('\r' :: acc) rest
    | 'b' => parseStringBody fuel ('\x08' :: acc) rest
    | 'f' => parseStringBody fuel ('\x0c' :: acc) rest
    | 'u' =>
      match rest with
      | h1 :: h2 :: h3 :: h4 :: rest' =>
        match hexVal h1, hexVal h2, hexVal h3, hexVal h4 with
        | some a, some b, some c, some d =>
          let n := ((a * 16 + b) * 16 + c) * 16 + d
          if h : n.isValidChar then parseStringBody fuel (Char.ofNatAux n h :: acc) rest'
          else parseStringBody fuel ('�' :: acc) rest'
        | _, _, _, _ => none
      | _ => none
    | _ => none
  | fuel + 1, acc, c :: rest =>
    if c.toNat < 0x20 then none else parseStringBody fuel (c :: acc) rest
  | _, _, [] => none

/-- Parse a JSON number (possibly signed, with fraction and exponent) into a
rational. -/
def parseNumber (cs : List Char) : Option (Rat × List Char) :=
  let neg : Bool := match cs with
    | '-' :: _ => true
    | _ => false
  let cs1 := if neg then cs.drop 1 else cs
  let intDigits := cs1.takeWhile isDigitChar
  let afterInt := cs1.dropWhile isDigitChar
  if intDigits.isEmpty then none else
  let (fracDigits, afterFrac) := match afterInt with
    | '.' :: t => (t.takeWhile isDigitChar, t.dropWhile isDigitChar)
    | _ => ([], afterInt)
  if afterInt.length > 0 && afterInt.headD ' ' == '.' && fracDigits.isEmpty then none else
  let (expOk, expNeg, expDigits, restFinal) := match afterFrac with
    | 'e' :: '-' :: t => (!(t.takeWhile isDigitChar).isEmpty, true, t.takeWhile isDigitChar, t.dropWhile isDigitChar)
    | 'E' :: '-' :: t => (!(t.takeWhile isDigitChar).isEmpty, true, t.takeWhile isDigitChar, t.dropWhile isDigitChar)
    | 'e' :: '+' :: t => (!(t.takeWhile isDigitChar).isEmpty, false, t.takeWhile isDigitChar, t.dropWhile isDigitChar)
    | 'E' :: '+' :: t => (!(t.takeWhile isDigitChar).isEmpty, false, t.takeWhile isDigitChar, t.dropWhile isDigitChar)
    | 'e' :: t => (!(t.takeWhile isDigitChar).isEmpty, false, t.takeWhile isDigitChar, t.dropWhile isDigitChar)
    | 'E' :: t => (!(t.takeWhile isDigitChar).isEmpty, false, t.takeWhile isDigitChar, t.dropWhile isDigitChar)
    | _ => (true, false, [], afterFrac)
  if !expOk then none else
  let fracLen := fracDigits.length
  let mant : Nat := digitsToNat intDigits * 10 ^ fracLen + digitsToNat fracDigits
  let eVal : Nat := digitsToNat expDigits
  let numAbs : Int := if expNeg then (mant : Int) else ((mant * 10 ^ eVal : Nat) : Int)
  let den : Nat := if expNeg then 10 ^ fracLen * 10 ^ eVal else 10 ^ fracLen
  some (mkRat (if neg then -numAbs else numAbs) den, restFinal)

/-- Record a parsed object member, later duplicates overriding earlier ones as
JSON.parse does. -/
def addField (fields : List (String × JSValue)) (k : String) (v : JSValue) :
    List (String × JSValue) :=
  fields.filter (fun p => p.1 != k) ++ [(k, v)]

mutual

/-- Recursive-descent parse of one JSON value (fuel bounds the recursion; the
top-level entry point supplies ample fuel). -/
def parseVal : Nat → List Char → Option (JSValue × List Char)
  | 0, _ => none
  | fuel + 1, cs =>
    match skipWs cs with
    | 'n' :: 'u' :: 'l' :: 'l' :: rest => some (.null, rest)
    | 't' :: 'r' :: 'u' :: 'e' :: rest => some (.bool true, rest)
    | 'f' :: 'a' :: 'l' :: 's' :: 'e' :: rest => some (.bool false, rest)
    | '"' :: rest =>
      match parseStringBody (rest.length + 1) [] rest with
      | some (s, rest') => some (.str s, rest')
      | none => none
    | '\x7b' :: rest =>
      (match skipWs rest with
       | '\x7d' :: rest' => some (.obj [], rest')
       | _ => parseMembers fuel [] rest)
    | '[' :: rest =>
      (match skipWs rest with
       | ']' :: rest' => some (.arr [], rest')
       | _ => parseElems fuel [] rest)
    | c :: rest =>
      if c == '-' || isDigitChar c then
        match parseNumber (c :: rest) with
        | some (q, rest') => some (.num q, rest')
        | none => none
      else none
    | [] => none

/-- Parse the members of a JSON object (after the opening brace, at least one
member present). -/
def parseMembers : Nat → List (String × JSValue) → List Char →
    Option (JSValue × List Char)
  | 0, _, _ => none
  | fuel + 1, acc, cs =>
    match skipWs cs with
    | '"' :: rest =>
      match parseStringBody (rest.length + 1) [] rest with
      | some (k, rest1) =>
        (match skipWs rest1 with
         | ':' :: rest2 =>
           match parseVal fuel rest2 with
           | some (v, rest3) =>
             (match skipWs rest3 with
              | ',' :: rest4 => parseMembers fuel (addField acc k v) rest4
              | '\x7d' :: rest4 => some (.obj (addField acc k v), rest4)
              | _ => none)
           | none => none
         | _ => none)
      | none => none
    | _ => none

/-- Parse the elements of a JSON array (after the opening bracket, at least one
element present). -/
def parseElems : Nat → List JSValue → List Char → Option (JSValue × List Char)
  | 0, _, _ => none
  | fuel + 1, acc, cs =>
    match parseVal fuel cs with
    | some (v, rest) =>
      (match skipWs rest with
       | ',' :: rest' => parseElems fuel (acc ++ [v]) rest'
       | ']' :: rest' => some (.arr (acc ++ [v]), rest')
       | _ => none)
    | none => none

end

/-- Model of JSON.parse: produces the parsed value, or none where JSON.parse
throws a SyntaxError. -/
def jsonParse (s : String) : Option JSValue :=
  match parseVal (2 * s.length + 4) s.data with
  | some (v, rest) => if (skipWs rest).isEmpty then some v else none
  | none => none

/-- Escape one character for a JSON string literal. -/
def escapeChar (c : Char) : List Char :=
  if c == '"' then ['\\', '"']
  else if c == '\\' then ['\\', '\\']
  else if c == '\n' then ['\\', 'n']
  else if c == '\t' then ['\\', 't']
  else if c == '\r' then ['\\', 'r']
  else [c]

/-- Serialize a string as a JSON string literal. -/
def stringifyString (s : String) : String :=
  "\"" ++ String.mk (s.data.flatMap escapeChar) ++ "\""

/-- The undefined value (whose object members JSON.stringify omits). -/
def isUndef : JSValue → Bool
  | .undefined => true
  | _ => false

mutual

/-- Model of JSON.stringify on the embedded values (undefined object members
are omitted, undefined array elements become null, as in JavaScript). -/
def jsonStringify : JSValue → String
  | .null => "null"
  | .undefined => "null"
  | .bool true => "true"
  | .bool false => "false"
  | .num q => jsNumToString q
  | .str s => stringifyString s
  | .arr elems => "[" ++ String.intercalate "," (stringifyElems elems) ++ "]"
  | .obj fields => "\x7b" ++ String.intercalate "," (stringifyFields fields) ++ "\x7d"

/-- Serialized forms of the elements of an array. -/
def stringifyElems : List JSValue → List String
  | [] => []
  | v :: rest => jsonStringify v :: stringifyElems rest

/-- Serialized forms of the defined members of an object. -/
def stringifyFields : List (String × JSValue) → List String
  | [] => []
  | (k, v) :: rest =>
    if isUndef v then stringifyFields rest
    else (stringifyString k ++ ":" ++ jsonStringify v) :: stringifyFields rest

end

/-! ### Payload Validator (validatePayload in the api-handler module)

The source checks, in order: contactInfo (name, email, phone), quoteItems
(array, non-empty, per-index productName and quantity checks), and
agreedToContact, accumulating error strings.  Field reads and .trim() calls
can throw, which Except propagates. -/

/-- The check for name and phone: if the field is falsy push the message;
otherwise call .trim() (throws on a truthy non-string) and push the message
when the trimmed value is empty. -/
def checkRequiredTrimmed (v : JSValue) (msg : String) : Except String (List String) :=
  if truthy v then do
    let t ← jsTrim v
    if t == "" then return [msg] else return []
  else .ok [msg]

/-- The email check: required (falsy or trims to empty), else tested against
the email regular expression on the untrimmed value. -/
def checkEmail (v : JSValue) : Except String (List String) :=
  if truthy v then do
    let t ← jsTrim v
    if t == "" then return ["email is required"]
    else
      match v with
      | .str s => if jsEmailRegexTest s then return [] else return ["email is invalid"]
      | _ => return []
  else .ok ["email is required"]

/-- The contactInfo branch of validatePayload (contactInfo already truthy). -/
def validateContact (contactInfo : JSValue) : Except String (List String) := do
  let name ← getProp contactInfo "name"
  let nameErrs ← checkRequiredTrimmed name "name is required"
  let email ← getProp contactInfo "email"
  let emailErrs ← checkEmail email
  let phone ← getProp contactInfo "phone"
  let phoneErrs ← checkRequiredTrimmed phone "phone is required"
  return nameErrs ++ emailErrs ++ phoneErrs

/-- Is the quantity value a number that is at least 1?  The source pushes the
quantity error when typeof quantity is not "number" or quantity < 1. -/
def quantityOk : JSValue → Bool
  | .num q => 1 ≤ q
  | _ => false

/-- The per-index forEach body of validatePayload, iterated over the items
list, numbering entries from i.  Reading a property of a null or undefined
entry throws. -/
def validateItems : Nat → List JSValue → Except String (List String)
  | _, [] => .ok []
  | i, item :: rest => do
    let productName ← getProp item "productName"
    let nameErrs :=
      if truthy productName then []
      else ["quoteItems[" ++ toString i ++ "].productName is required"]
    let quantity ← getProp item "quantity"
    let qtyErrs :=
      if quantityOk quantity then []
      else ["quoteItems[" ++ toString i ++ "].quantity must be a positive number"]
    let restErrs ← validateItems (i + 1) rest
    return nameErrs ++ qtyErrs ++ restErrs

/-- The quoteItems branch of validatePayload: a non-array (falsy or not an
array) is rejected, an empty array is rejected, and otherwise the per-index
checks run. -/
def validateQuoteItems (quoteItems : JSValue) : Except String (List String) :=
  match quoteItems with
  | .arr [] => .ok ["quoteItems cannot be empty"]
  | .arr items => validateItems 0 items
  | _ => .ok ["quoteItems must be an array"]

/-- The agreedToContact check of validatePayload: anything but boolean true
(missing, false, or non-boolean) yields the agreement error. -/
def agreedToContactErrs (agreed : JSValue) : List String :=
  match agreed with
  | .bool true => []
  | _ => ["agreedToContact must be true"]

/-- validatePayload from the api-handler module: accumulates all error
strings; property reads on null/undefined and .trim() on truthy non-strings
throw, which the Except error propagates (the source has no catch here). -/
def validatePayload (body : JSValue) : Except String (List String) := do
  let contactInfo ← getProp body "contactInfo"
  let contactErrs ←
    if truthy contactInfo then validateContact contactInfo
    else pure ["contactInfo is required"]
  let quoteItems ← getProp body "quoteItems"
  let itemErrs ← validateQuoteItems quoteItems
  let agreed ← getProp body "agreedToContact"
  return contactErrs ++ itemErrs ++ agreedToContactErrs agreed

/-! ### Configuration loading at module start

The email-processor module reads SALES_REP_EMAIL and SENDER_EMAIL through
getRequiredEnv at module load (so a missing value throws before any event is
handled); the api-handler module reads QUEUE_URL directly from the
environment with no check. -/

/-- getRequiredEnv from the email-processor module: a missing or empty value
(both falsy) throws. -/
def getRequiredEnv (env : String → Option String) (key : String) : Except String String :=
  match env key with
  | none => .error ("Missing required environment variable: " ++ key)
  | some v =>
    if v == "" then .error ("Missing required environment variable: " ++ key)
    else .ok v

/-- Module-load evaluation of the email-processor: resolves SALES_REP_EMAIL
then SENDER_EMAIL through getRequiredEnv; an error here is a fatal startup
failure. -/
def emailProcessorInit (env : String → Option String) : Except String (String × String) := do
  let salesRepEmail ← getRequiredEnv env "SALES_REP_EMAIL"
  let senderEmail ← getRequiredEnv env "SENDER_EMAIL"
  return (salesRepEmail, senderEmail)

/-- Module-load evaluation of the api-handler: QUEUE_URL is read with no
presence check, so module load always succeeds and a missing value is simply
carried along as an absent option. -/
def apiHandlerInit (env : String → Option String) : Except String (Option String) :=
  .ok (env "QUEUE_URL")

/-! ### Intake Handler (the api-handler module's lambda handler) -/

/-- The structured response body the handler JSON-stringifies (modelled
structurally; absent options are fields the source object literal omits). -/
structure ApiResponseBody where
  success : Bool
  error : Option String := none
  details : Option (List String) := none
  message : Option String := none
deriving Repr, DecidableEq

/-- An API Gateway response: status code, constant headers, structured body. -/
structure ApiResponse where
  statusCode : Nat
  headers : List (String × String)
  body : ApiResponseBody
deriving Repr, DecidableEq

/-- The constant response headers. -/
def apiHeaders : List (String × String) := [("Content-Type", "application/json")]

/-- The 400 response for a body JSON.parse rejects. -/
def invalidJsonResponse : ApiResponse :=
  { statusCode := 400, headers := apiHeaders,
    body := { success := false, error := some "Invalid JSON in request body" } }

/-- The 400 response carrying the validator's error list. -/
def validationFailedResponse (errs : List String) : ApiResponse :=
  { statusCode := 400, headers := apiHeaders,
    body := { success := false, error := some "Validation failed", details := some errs } }

/-- The 200 response after a successful enqueue. -/
def successResponse : ApiResponse :=
  { statusCode := 200, headers := apiHeaders,
    body := { success := true, message := some "Quote request submitted successfully" } }

/-- The catch-all 500 response. -/
def serverErrorResponse : ApiResponse :=
  { statusCode := 500, headers := apiHeaders,
    body := { success := false, error := some "Internal server error. Please try again later." } }

/-- The SendMessageCommand the handler issues: target queue, serialized
payload, and the email message attribute. -/
structure SqsMessage where
  queueUrl : Option String
  messageBody : String
  emailAttribute : JSValue

/-- The handler parses JSON.parse(event.body or "\x7b\x7d"): an absent or
empty (falsy) raw body is replaced by the empty-object literal. -/
def effectiveBody : Option String → String
  | none => "\x7b\x7d"
  | some s => if s == "" then "\x7b\x7d" else s

/-- The contact email the handler attaches as the message attribute
(body.contactInfo.email). -/
def contactEmailOf (body : JSValue) : Except String JSValue := do
  let contactInfo ← getProp body "contactInfo"
  getProp contactInfo "email"

/-- The body of the handler's outer try block, together with the list of
SendMessage calls issued (in order).  The inner try around JSON.parse turns a
parse failure into the 400 invalid-JSON response; everything else propagates
as an error to the outer catch. -/
def handlerAttempt (queueUrl : Option String)
    (sendMessage : SqsMessage → Except String Unit) (rawBody : Option String) :
    Except String ApiResponse × List SqsMessage :=
  match jsonParse (effectiveBody rawBody) with
  | none => (.ok invalidJsonResponse, [])
  | some body =>
    match validatePayload body with
    | .error e => (.error e, [])
    | .ok validationErrors =>
      if validationErrors.length > 0 then
        (.ok (validationFailedResponse validationErrors), [])
      else
        match contactEmailOf body with
        | .error e => (.error e, [])
        | .ok email =>
          let msg : SqsMessage :=
            { queueUrl := queueUrl, messageBody := jsonStringify body,
              emailAttribute := email }
          match sendMessage msg with
          | .error e => (.error e, [msg])
          | .ok _ => (.ok successResponse, [msg])

/-- The api-handler lambda handler: the outer catch maps any propagated error
to the 500 response.  The second component lists the SendMessage calls the
invocation issued. -/
def apiHandler (queueUrl : Option String)
    (sendMessage : SqsMessage → Except String Unit) (rawBody : Option String) :
    ApiResponse × List SqsMessage :=
  match handlerAttempt queueUrl sendMessage rawBody with
  | (.ok response, msgs) => (response, msgs)
  | (.error _, msgs) => (serverErrorResponse, msgs)

/-! ### Notification Renderer (email-processor module)

The renderer receives whatever JSON.parse produced from the queue message
body, so it is embedded over JSValue with throwing property access.  Template
interpolation stringifies values the way JavaScript does (undefined prints as
the string undefined). -/

mutual

/-- JavaScript string interpolation of a value. -/
def jsDisplay : JSValue → String
  | .null => "null"
  | .undefined => "undefined"
  | .bool true => "true"
  | .bool false => "false"
  | .num q => jsNumToString q
  | .str s => s
  | .arr elems => String.intercalate "," (displayElems elems)
  | .obj _ => "[object Object]"

/-- Array.prototype.toString joins elements with commas; null and undefined
elements print as empty strings. -/
def displayElems : List JSValue → List String
  | [] => []
  | .null :: rest => "" :: displayElems rest
  | .undefined :: rest => "" :: displayElems rest
  | v :: rest => jsDisplay v :: displayElems rest

end

/-- One table row of formatQuoteItemsHtml, with the three interpolated cell
values. -/
def itemRowHtml (itemNumber productName quantity : String) : String :=
  "\n    <tr>\n      <td style=\"padding: 8px; border: 1px solid #ddd;\">" ++ itemNumber ++
  "</td>\n      <td style=\"padding: 8px; border: 1px solid #ddd;\">" ++ productName ++
  "</td>\n      <td style=\"padding: 8px; border: 1px solid #ddd; text-align: center;\">" ++ quantity ++
  "</td>\n    </tr>\n  "

/-- The rows produced by the .map in formatQuoteItemsHtml; reading a property
of a null or undefined entry throws. -/
def itemRowsHtml : List JSValue → Except String (List String)
  | [] => .ok []
  | item :: rest => do
    let itemNumber ← getProp item "itemNumber"
    let productName ← getProp item "productName"
    let quantity ← getProp item "quantity"
    let restRows ← itemRowsHtml rest
    return itemRowHtml (jsDisplay itemNumber) (jsDisplay productName) (jsDisplay quantity) :: restRows

/-- The table template up to the interpolated rows. -/
def tableSegHead : String :=
  "\n    <table style=\"border-collapse: collapse; width: 100%; margin: 16px 0;\">\n      <thead>\n        <tr style=\"background-color: #f5f5f5;\">\n          <th style=\"padding: 8px; border: 1px solid #ddd; text-align: left;\">Item #</th>\n          <th style=\"padding: 8px; border: 1px solid #ddd; text-align: left;\">Product</th>\n          <th style=\"padding: 8px; border: 1px solid #ddd; text-align: center;\">Packs</th>\n        </tr>\n      </thead>\n      <tbody>\n        "

/-- The table template between the rows and the interpolated total (the tfoot
Total cell). -/
def tableSegTotalOpen : String :=
  "\n      </tbody>\n       <tfoot>\n        <tr style=\"background-color: #f5f5f5;\">\n          <th style=\"padding: 8px; border: 1px solid #ddd; text-align: left;\" colspan=\"2\"><strong>Total</strong></th>\n          <th style=\"padding: 8px; border: 1px solid #ddd; text-align: center;\">"

/-- The table template after the interpolated total. -/
def tableSegTotalClose : String :=
  "</th>\n        </tr>\n      </tfoot>\n    </table>\n  "

/-- The tfoot Total cell as displayed: the total figure between its fixed
surroundings. -/
def displayedHtmlTotal (total : String) : String :=
  tableSegTotalOpen ++ total ++ tableSegTotalClose

/-- The table template of formatQuoteItemsHtml, with the joined rows and the
interpolated totalPacksRequested. -/
def quoteItemsTableHtml (rows total : String) : String :=
  tableSegHead ++ rows ++ displayedHtmlTotal total

/-- formatQuoteItemsHtml: maps the items to table rows, joins them with the
empty string, and splices them with the totalPacksRequested argument into the
table template.  Calling .map on a non-array throws. -/
def formatQuoteItemsHtml (quoteItems totalPacksRequested : JSValue) : Except String String :=
  match quoteItems with
  | .arr items => do
    let rows ← itemRowsHtml items
    return quoteItemsTableHtml (String.join rows) (jsDisplay totalPacksRequested)
  | _ => .error "TypeError: quoteItems.map is not a function"

/-- One line of formatQuoteItemsText, with the three interpolated values. -/
def itemLineText (itemNumber productName quantity : String) : String :=
  "- [" ++ itemNumber ++ "] " ++ productName ++ ": " ++ quantity ++ " pack(s)"

/-- The lines produced by the .map in formatQuoteItemsText. -/
def itemLinesText : List JSValue → Except String (List String)
  | [] => .ok []
  | item :: rest => do
    let itemNumber ← getProp item "itemNumber"
    let productName ← getProp item "productName"
    let quantity ← getProp item "quantity"
    let restLines ← itemLinesText rest
    return itemLineText (jsDisplay itemNumber) (jsDisplay productName) (jsDisplay quantity) :: restLines

/-- formatQuoteItemsText: maps the items to plain-text lines joined with
newlines. -/
def formatQuoteItemsText (quoteItems : JSValue) : Except String String :=
  match quoteItems with
  | .arr items => do
    let lines ← itemLinesText items
    return String.intercalate "\n" lines
  | _ => .error "TypeError: quoteItems.map is not a function"

/-- The rendered notification content. -/
structure EmailContent where
  subject : String
  htmlBody : String
  textBody : String
deriving Repr, DecidableEq

/-- The HTML template from its start through the Name label. -/
def htmlSegHead : String :=
  "\n    <!DOCTYPE html>\n    <html>\n    <head>\n      <meta charset=\"utf-8\">\n      <style>\n        body \x7b font-family: Arial, sans-serif; line-height: 1.6; color: #333; \x7d\n        .container \x7b max-width: 600px; margin: 0 auto; padding: 20px; \x7d\n        .header \x7b background-color: #2563eb; color: white; padding: 20px; text-align: center; \x7d\n        .section \x7b margin: 20px 0; padding: 15px; background-color: #f9fafb; border-radius: 8px; \x7d\n        .section-title \x7b font-weight: bold; margin-bottom: 10px; color: #1f2937; \x7d\n        .info-row \x7b margin: 5px 0; \x7d\n        .label \x7b font-weight: 600; \x7d\n        .footer \x7b margin-top: 20px; padding-top: 20px; border-top: 1px solid #ddd; font-size: 12px; color: #666; \x7d\n      </style>\n    </head>\n    <body>\n      <div class=\"container\">\n        <div class=\"header\">\n          <h1>New Quote Request</h1>\n        </div>\n\n        <div class=\"section\">\n          <div class=\"section-title\">Customer Contact Information</div>\n          <div class=\"info-row\"><span class=\"label\">Name:</span> "

/-- The HTML template between the name and the mailto link. -/
def htmlSegEmail : String :=
  "</div>\n          <div class=\"info-row\"><span class=\"label\">Email:</span> <a href=\"mailto:"

/-- The quote-and-bracket closing an anchor's href and opening its text. -/
def htmlSegHrefClose : String := "\">"

/-- The HTML template between the email link and the tel link. -/
def htmlSegPhone : String :=
  "</a></div>\n          <div class=\"info-row\"><span class=\"label\">Phone:</span> <a href=\"tel:"

/-- The HTML template between the phone link and the items table. -/
def htmlSegItems : String :=
  "</a></div>\n        </div>\n\n        <div class=\"section\">\n          <div class=\"section-title\">Requested Items</div>\n          "

/-- The HTML template between the items table and the submission timestamp. -/
def htmlSegSubmitted : String :=
  "\n        </div>\n\n        <div class=\"section\">\n          <div class=\"section-title\">Request Details</div>\n          <div class=\"info-row\"><span class=\"label\">Submitted:</span> "

/-- The HTML template after the submission timestamp. -/
def htmlSegTail : String :=
  "</div>\n        </div>\n\n        <div class=\"footer\">\n          <p>This is an automated message from A & S Distributors quote request system.</p>\n          <p>The customer has agreed to be contacted by a sales representative.</p>\n        </div>\n      </div>\n    </body>\n    </html>\n  "

/-- The HTML body template of generateEmailContent with its interpolation
points (name, email twice, phone twice, the items table, submittedAt). -/
def htmlBodyTemplate (name email phone itemsHtml submittedAt : String) : String :=
  htmlSegHead ++ name ++ htmlSegEmail ++ email ++ htmlSegHrefClose ++ email ++
  htmlSegPhone ++ phone ++ htmlSegHrefClose ++ phone ++ htmlSegItems ++ itemsHtml ++
  htmlSegSubmitted ++ submittedAt ++ htmlSegTail

/-- The text template from its start through the Name label. -/
def textSegHead : String :=
  "\nNEW QUOTE REQUEST\n=================\n\nContact Information\n-------------------\nName: "

/-- The text template's Email label. -/
def textSegEmail : String := "\nEmail: "

/-- The text template's Phone label. -/
def textSegPhone : String := "\nPhone: "

/-- The text template between the phone and the unique-product count. -/
def textSegItemsOpen : String := "\n\nRequested Items ("

/-- The text template between the unique-product count and the total. -/
def textSegProducts : String := " products, "

/-- The text template between the total and the item lines. -/
def textSegTotalPacks : String := " total packs)\n-------------------\n"

/-- The text template between the item lines and the timestamp. -/
def textSegDetails : String := "\n\nRequest Details\n-------------------\nSubmitted: "

/-- The text template after the timestamp. -/
def textSegTail : String :=
  "\n\n---\nThis is an automated message from A & S Distributors quote request system.\nThe customer has agreed to be contacted by a sales representative.\n  "

/-- The displayed text-body total: the total figure between its fixed
surroundings. -/
def displayedTextTotal (total : String) : String :=
  textSegProducts ++ total ++ textSegTotalPacks

/-- Everything of the text template between its fixed first and last
segments. -/
def textBodyMid (name email phone totalUniqueProducts totalItems itemsText submittedAt : String) : String :=
  name ++ textSegEmail ++ email ++ textSegPhone ++ phone ++ textSegItemsOpen ++
  totalUniqueProducts ++ displayedTextTotal totalItems ++ itemsText ++
  textSegDetails ++ submittedAt

/-- The plain-text body template of generateEmailContent, before the final
.trim(), with its interpolation points. -/
def textBodyTemplate (name email phone totalUniqueProducts totalItems itemsText submittedAt : String) : String :=
  textSegHead ++
  textBodyMid name email phone totalUniqueProducts totalItems itemsText submittedAt ++
  textSegTail

/-- generateEmailContent: destructures contactInfo, quoteItems and metadata
from the request, builds the subject, the HTML body (whose items table is
passed metadata.totalItems as the displayed total), and the trimmed text body
(which interpolates metadata.totalUniqueProducts and metadata.totalItems
directly). -/
def generateEmailContent (quoteRequest : JSValue) : Except String EmailContent := do
  let contactInfo ← getProp quoteRequest "contactInfo"
  let quoteItems ← getProp quoteRequest "quoteItems"
  let metadata ← getProp quoteRequest "metadata"
  let name ← getProp contactInfo "name"
  let subject := "New Quote Request from " ++ jsDisplay name
  let email ← getProp contactInfo "email"
  let phone ← getProp contactInfo "phone"
  let totalItems ← getProp metadata "totalItems"
  let itemsHtml ← formatQuoteItemsHtml quoteItems totalItems
  let submittedAt ← getProp metadata "submittedAt"
  let htmlBody :=
    htmlBodyTemplate (jsDisplay name) (jsDisplay email) (jsDisplay phone) itemsHtml
      (jsDisplay submittedAt)
  let totalUniqueProducts ← getProp metadata "totalUniqueProducts"
  let itemsText ← formatQuoteItemsText quoteItems
  let textBody :=
    jsTrimString
      (textBodyTemplate (jsDisplay name) (jsDisplay email) (jsDisplay phone)
        (jsDisplay totalUniqueProducts) (jsDisplay totalItems) itemsText
        (jsDisplay submittedAt))
  return { subject := subject, htmlBody := htmlBody, textBody := textBody }

/-! ### Notification Dispatcher (email-processor lambda handler) -/

/-- JSON.parse as the dispatcher calls it: a parse failure is a thrown
SyntaxError. -/
def jsonParseOrThrow (s : String) : Except String JSValue :=
  match jsonParse s with
  | some v => .ok v
  | none => .error "SyntaxError: Unexpected token in JSON"

/-- One SQS record of the triggering event. -/
structure SqsRecord where
  body : String

/-- The SendEmailCommand the dispatcher issues. -/
structure SendEmailCmd where
  source : String
  toAddresses : List String
  replyToAddresses : List JSValue
  subject : String
  htmlBody : String
  textBody : String

/-- Processing of one record inside the dispatcher's loop: deserialize,
render, build the command (reply-to is the request's contactInfo.email), and
send.  Any error propagates: the source's catch logs and rethrows. -/
def processQuoteRecord (salesRepEmail senderEmail : String)
    (sendEmail : SendEmailCmd → Except String Unit) (record : SqsRecord) :
    Except String Unit := do
  let quoteRequest ← jsonParseOrThrow record.body
  let content ← generateEmailContent quoteRequest
  let contactInfo ← getProp quoteRequest "contactInfo"
  let replyTo ← getProp contactInfo "email"
  sendEmail
    { source := senderEmail, toAddresses := [salesRepEmail],
      replyToAddresses := [replyTo], subject := content.subject,
      htmlBody := content.htmlBody, textBody := content.textBody }

/-- The email-processor lambda handler: processes the records in order; the
first error ends the invocation with that error (the catch rethrows), and the
handler returns normally only when every record was processed. -/
def emailProcessorHandler (salesRepEmail senderEmail : String)
    (sendEmail : SendEmailCmd → Except String Unit) :
    List SqsRecord → Except String Unit
  | [] => .ok ()
  | record :: rest => do
    processQuoteRecord salesRepEmail senderEmail sendEmail record
    emailProcessorHandler salesRepEmail senderEmail sendEmail rest

/-! ### The declared payload type

The types module declares QuoteItem with exactly productName and quantity
(there is no itemNumber member), and QuoteRequestPayload with contactInfo,
quoteItems, metadata and agreedToContact.  Typed payloads embed into runtime
values through toJS. -/

/-- The declared contactInfo shape. -/
structure ContactInfo where
  name : String
  email : String
  phone : String

/-- QuoteItem as declared by the types module: productName and quantity only. -/
structure QuoteItem where
  productName : String
  quantity : Rat

/-- The declared metadata shape. -/
structure QuoteMetadata where
  totalItems : Rat
  totalUniqueProducts : Rat
  submittedAt : String

/-- QuoteRequestPayload as declared by the types module. -/
structure QuoteRequestPayload where
  contactInfo : ContactInfo
  quoteItems : List QuoteItem
  metadata : QuoteMetadata
  agreedToContact : Bool

/-- The runtime value of a declared QuoteItem. -/
def QuoteItem.toJS (item : QuoteItem) : JSValue :=
  .obj [("productName", .str item.productName), ("quantity", .num item.quantity)]

/-- The runtime value of a declared QuoteRequestPayload. -/
def QuoteRequestPayload.toJS (q : QuoteRequestPayload) : JSValue :=
  .obj
    [("contactInfo",
      .obj [("name", .str q.contactInfo.name), ("email", .str q.contactInfo.email),
            ("phone", .str q.contactInfo.phone)]),
     ("quoteItems", .arr (q.quoteItems.map QuoteItem.toJS)),
     ("metadata",
      .obj [("totalItems", .num q.metadata.totalItems),
            ("totalUniqueProducts", .num q.metadata.totalUniqueProducts),
            ("submittedAt", .str q.metadata.submittedAt)]),
     ("agreedToContact", .bool q.agreedToContact)]

/-! ### Derived closed forms of the renderer on declared payloads -/

/-- The table row a declared item produces: the identifier cell interpolates
item.itemNumber, a property the declared QuoteItem does not have, so it
renders as the string undefined. -/
def declaredItemRowHtml (item : QuoteItem) : String :=
  itemRowHtml "undefined" item.productName (jsNumToString item.quantity)

/-- The text line a declared item produces (same undefined identifier). -/
def declaredItemLineText (item : QuoteItem) : String :=
  itemLineText "undefined" item.productName (jsNumToString item.quantity)

/-- The subject the renderer produces for a declared payload. -/
def renderedSubject (q : QuoteRequestPayload) : String :=
  "New Quote Request from " ++ q.contactInfo.name

/-- The HTML body the renderer produces for a declared payload. -/
def renderedHtmlBody (q : QuoteRequestPayload) : String :=
  htmlBodyTemplate q.contactInfo.name q.contactInfo.email q.contactInfo.phone
    (quoteItemsTableHtml (String.join (q.quoteItems.map declaredItemRowHtml))
      (jsNumToString q.metadata.totalItems))
    q.metadata.submittedAt

/-- The text body the renderer produces for a declared payload. -/
def renderedTextBody (q : QuoteRequestPayload) : String :=
  jsTrimString
    (textBodyTemplate q.contactInfo.name q.contactInfo.email q.contactInfo.phone
      (jsNumToString q.metadata.totalUniqueProducts) (jsNumToString q.metadata.totalItems)
      (String.intercalate "\n" (q.quoteItems.map declaredItemLineText))
      q.metadata.submittedAt)

/-! ### Shapes on which the validator cannot throw, and spec-side validity -/

/-- Total variant of property access, used only to state predicates (it agrees
with getProp wherever getProp succeeds). -/
def getPropD (v : JSValue) (k : String) : JSValue :=
  match getProp v k with
  | .ok x => x
  | .error _ => .undefined

/-- null or undefined, the values property access throws on. -/
def isNullish : JSValue → Bool
  | .null => true
  | .undefined => true
  | _ => false

/-- Is the value a string? -/
def isStringValue : JSValue → Bool
  | .str _ => true
  | _ => false

/-- A contact field the validator can process without throwing: falsy, or an
actual string (a truthy non-string makes .trim() throw). -/
def safeContactField (v : JSValue) : Bool :=
  !truthy v || isStringValue v

/-- A quoteItems value the validator can iterate without throwing: if it is an
array, none of its elements is null/undefined. -/
def safeItemsShape (v : JSValue) : Bool :=
  match v with
  | .arr items => items.all (fun item => !isNullish item)
  | _ => true

/-- Shapes on which validatePayload provably terminates without a thrown
TypeError: the value itself is not null/undefined, truthy contact fields are
strings, and no element of a quoteItems array is null/undefined. -/
def safeShape (raw : JSValue) : Bool :=
  !isNullish raw &&
  (!truthy (getPropD raw "contactInfo") ||
    (safeContactField (getPropD (getPropD raw "contactInfo") "name") &&
     safeContactField (getPropD (getPropD raw "contactInfo") "email") &&
     safeContactField (getPropD (getPropD raw "contactInfo") "phone"))) &&
  safeItemsShape (getPropD raw "quoteItems")

/-- Modelled from the spec: a name/phone-like field is a string that is
non-empty after trimming. -/
def specTrimmedNonEmptyString (v : JSValue) : Bool :=
  match v with
  | .str s => jsTrimString s != ""
  | _ => false

/-- Modelled from the spec: the email is a string, non-empty after trimming,
matching the basic local at domain dot tld pattern. -/
def specEmailField (v : JSValue) : Bool :=
  match v with
  | .str s => jsTrimString s != "" && jsEmailRegexTest s
  | _ => false

/-- Modelled from the spec: an item needs a present/non-empty productName and
a quantity that is a number at least 1. -/
def specItemOk (item : JSValue) : Bool :=
  truthy (getPropD item "productName") && quantityOk (getPropD item "quantity")

/-- Modelled from the spec: items must be a non-empty sequence of valid
items. -/
def specItemsOk (v : JSValue) : Bool :=
  match v with
  | .arr items => !items.isEmpty && items.all specItemOk
  | _ => false

/-- Modelled from the spec: agreedToContact must be boolean true exactly. -/
def specAgreedOk (v : JSValue) : Bool :=
  match v with
  | .bool true => true
  | _ => false

/-- Modelled from the spec: the contact block is present with valid name,
email and phone. -/
def specContactOk (ci : JSValue) : Bool :=
  truthy ci &&
  specTrimmedNonEmptyString (getPropD ci "name") &&
  specEmailField (getPropD ci "email") &&
  specTrimmedNonEmptyString (getPropD ci "phone")

/-- Modelled from the spec (sections 3 and 4.1): a payload is valid when the
contact block, the items list and the agreement flag all pass. -/
def specValidPayload (raw : JSValue) : Bool :=
  specContactOk (getPropD raw "contactInfo") &&
  specItemsOk (getPropD raw "quoteItems") &&
  specAgreedOk (getPropD raw "agreedToContact")

/-! ### Concrete payloads used as witnesses and counterexamples -/

/-- The contact block of the spec's end-to-end scenarios. -/
def exampleContact : ContactInfo :=
  { name := "Jane", email := "jane@x.com", phone := "555-1234" }

/-- The scenario-5 quote (items A times 3 and B times 5) with a chosen
client-declared metadata.totalItems. -/
def exampleQuote (totalItems : Rat) : QuoteRequestPayload :=
  { contactInfo := exampleContact,
    quoteItems := [{ productName := "A", quantity := 3 }, { productName := "B", quantity := 5 }],
    metadata := { totalItems := totalItems, totalUniqueProducts := 2,
                  submittedAt := "2024-01-01T00:00:00Z" },
    agreedToContact := true }

/-- The spec's end-to-end scenario-1 request body. -/
def scenarioOneBody : String :=
  "\x7b\"contactInfo\":\x7b\"name\":\"Jane\",\"email\":\"jane@x.com\",\"phone\":\"555-1234\"\x7d,\"quoteItems\":[\x7b\"productName\":\"Widget\",\"quantity\":2\x7d],\"metadata\":\x7b\"totalItems\":2,\"totalUniqueProducts\":1,\"submittedAt\":\"2024-01-01T00:00:00Z\"\x7d,\"agreedToContact\":true\x7d"

/-- The value JSON.parse yields for the scenario-1 body. -/
def scenarioOneParsed : JSValue :=
  .obj [("contactInfo",
         .obj [("name", .str "Jane"), ("email", .str "jane@x.com"),
               ("phone", .str "555-1234")]),
        ("quoteItems", .arr [.obj [("productName", .str "Widget"), ("quantity", .num 2)]]),
        ("metadata",
         .obj [("totalItems", .num 2), ("totalUniqueProducts", .num 1),
               ("submittedAt", .str "2024-01-01T00:00:00Z")]),
        ("agreedToContact", .bool true)]

/-- A payload whose contactInfo.name is the number 5 (truthy, so .trim()
throws) and whose agreedToContact is false. -/
def truthyNonStringNameBody : JSValue :=
  .obj [("contactInfo",
         .obj [("name", .num 5), ("email", .str "jane@x.com"), ("phone", .str "555-1234")]),
        ("quoteItems", .arr [.obj [("productName", .str "A"), ("quantity", .num 1)]]),
        ("agreedToContact", .bool false)]

/-- A payload whose quoteItems array contains a null entry (reading
entry.productName throws). -/
def nullItemBody : JSValue :=
  .obj [("contactInfo",
         .obj [("name", .str "Jane"), ("email", .str "jane@x.com"), ("phone", .str "555-1234")]),
        ("quoteItems", .arr [.null, .obj [("quantity", .num 0)]]),
        ("agreedToContact", .bool true)]

/-- A payload with two malformed items (index 0 lacks a productName and has
quantity 0; index 1 has a string quantity). -/
def twoBadItemsBody : JSValue :=
  .obj [("contactInfo",
         .obj [("name", .str "Jane"), ("email", .str "jane@x.com"), ("phone", .str "555-1234")]),
        ("quoteItems", .arr [.obj [("quantity", .num 0)],
                             .obj [("productName", .str "X"), ("quantity", .str "2")]]),
        ("agreedToContact", .bool true)]

/-- An environment providing every variable except QUEUE_URL. -/
def envWithoutQueueUrl : String → Option String :=
  fun key => if key == "QUEUE_URL" then none else some "cfg@example.com"

/-! ### Substring occurrence

Containment of one string in another, as a proposition over the underlying
character lists and as an executable check for concrete strings. -/

/-- The string sub occurs contiguously inside s. -/
def SubstrOf (sub s : String) : Prop :=
  ∃ p q : List Char, s.data = p ++ sub.data ++ q

/-- Does the second list start with the first? -/
def leadsWith : List Char → List Char → Bool
  | [], _ => true
  | _ :: _, [] => false
  | a :: as, b :: bs => a == b && leadsWith as bs

/-- Does sub occur contiguously in the second list? -/
def containsChars (sub : List Char) : List Char → Bool
  | [] => sub.isEmpty
  | c :: rest => leadsWith sub (c :: rest) || containsChars sub rest

/-- Executable substring check on strings. -/
def strContains (s sub : String) : Bool :=
  containsChars sub.data s.data

theorem leadsWith_iff (a : List Char) : ∀ b, leadsWith a b = true ↔ ∃ t, b = a ++ t := by
  induction a with
  | nil =>
    intro b
    simp [leadsWith]
  | cons c cs ih =>
    intro b
    cases b with
    | nil =>
      simp [leadsWith]
    | cons d ds =>
      simp only [leadsWith, Bool.and_eq_true, beq_iff_eq, ih ds]
      constructor
      · rintro ⟨rfl, t, rfl⟩
        exact ⟨t, rfl⟩
      · rintro ⟨t, h⟩
        simp only [List.cons_append, List.cons.injEq] at h
        exact ⟨h.1.symm, t, h.2⟩

theorem containsChars_iff (sub : List Char) :
    ∀ l, containsChars sub l = true ↔ ∃ p q, l = p ++ sub ++ q := by
  intro l
  induction l with
  | nil =>
    simp only [containsChars, List.isEmpty_iff]
    constructor
    · rintro rfl
      exact ⟨[], [], rfl⟩
    · rintro ⟨p, q, h⟩
      rcases List.append_eq_nil.mp ((List.append_eq_nil.mp h.symm).1) with ⟨_, h2⟩
      exact h2
  | cons c rest ih =>
    simp only [containsChars, Bool.or_eq_true, leadsWith_iff, ih]
    constructor
    · rintro (⟨t, h⟩ | ⟨p, q, h⟩)
      · exact ⟨[], t, by simpa using h⟩
      · exact ⟨c :: p, q, by simp [h]⟩
    · rintro ⟨p, q, h⟩
      cases p with
      | nil =>
        exact Or.inl ⟨q, by simpa using h⟩
      | cons d ds =>
        simp only [List.cons_append, List.cons.injEq] at h
        exact Or.inr ⟨ds, q, h.2⟩

theorem strContains_iff (s sub : String) : strContains s sub = true ↔ SubstrOf sub s :=
  containsChars_iff sub.data s.data

/-! ### How trimming interacts with the fixed template borders

The text body is trimmed as a whole; these lemmas confirm that trimming a
string whose fixed head and tail contain non-whitespace characters leaves
everything between the first and last non-whitespace character intact. -/

theorem dropWhile_append_of_head (p : Char → Bool) (l₁ l₂ : List Char) (c : Char)
    (l₀ : List Char) (h : List.dropWhile p l₁ = c :: l₀) :
    List.dropWhile p (l₁ ++ l₂) = c :: (l₀ ++ l₂) := by
  induction l₁ with
  | nil => simp [List.dropWhile] at h
  | cons a t ih =>
    by_cases ha : p a
    · rw [List.dropWhile_cons, if_pos ha] at h
      rw [List.cons_append, List.dropWhile_cons, if_pos ha]
      exact ih h
    · rw [List.dropWhile_cons, if_neg ha] at h
      rcases List.cons.inj h with ⟨rfl, rfl⟩
      rw [List.cons_append, List.dropWhile_cons, if_neg ha]

theorem dropTrailingWs_append (l t : List Char) (c : Char) (t₀ : List Char)
    (h : List.dropWhile isWs t.reverse = c :: t₀) :
    dropTrailingWs (l ++ t) = l ++ dropTrailingWs t := by
  unfold dropTrailingWs
  rw [List.reverse_append, dropWhile_append_of_head isWs t.reverse l.reverse c t₀ h, h]
  simp

theorem trimChars_append_append (t₁ mid t₂ : List Char) (c₁ : Char) (l₁ : List Char)
    (h₁ : List.dropWhile isWs t₁ = c₁ :: l₁) (c₂ : Char) (l₂ : List Char)
    (h₂ : List.dropWhile isWs t₂.reverse = c₂ :: l₂) :
    trimChars (t₁ ++ mid ++ t₂) = (c₁ :: l₁) ++ mid ++ dropTrailingWs t₂ := by
  unfold trimChars
  rw [List.append_assoc, dropWhile_append_of_head isWs t₁ (mid ++ t₂) c₁ l₁ h₁]
  have := dropTrailingWs_append (c₁ :: (l₁ ++ mid)) t₂ c₂ l₂ h₂
  simp only [List.cons_append, List.append_assoc] at this ⊢
  rw [this]

/-! ### Monad and substring helper lemmas -/

theorem ok_bind {α β : Type} (a : α) (f : α → Except String β) :
    (Except.ok a : Except String α) >>= f = f a := rfl

theorem error_bind {α β : Type} (e : String) (f : α → Except String β) :
    (Except.error e : Except String α) >>= f = (.error e : Except String β) := rfl

theorem substrOf_self (s : String) : SubstrOf s s :=
  ⟨[], [], by simp⟩

theorem substrOf_left (sub t s : String) (h : SubstrOf sub s) : SubstrOf sub (t ++ s) := by
  obtain ⟨p, q, hp⟩ := h
  exact ⟨t.data ++ p, q, by rw [String.data_append, hp]; simp⟩

theorem substrOf_right (sub s t : String) (h : SubstrOf sub s) : SubstrOf sub (s ++ t) := by
  obtain ⟨p, q, hp⟩ := h
  exact ⟨p, q ++ t.data, by rw [String.data_append, hp]; simp⟩

theorem trimChars_between (t₁ mid t₂ : List Char)
    (h₁ : List.dropWhile isWs t₁ ≠ []) (h₂ : List.dropWhile isWs t₂.reverse ≠ []) :
    trimChars (t₁ ++ mid ++ t₂) = List.dropWhile isWs t₁ ++ mid ++ dropTrailingWs t₂ := by
  rcases hc₁ : List.dropWhile isWs t₁ with _ | ⟨c₁, l₁⟩
  · exact absurd hc₁ h₁
  rcases hc₂ : List.dropWhile isWs t₂.reverse with _ | ⟨c₂, l₂⟩
  · exact absurd hc₂ h₂
  rw [trimChars_append_append t₁ mid t₂ c₁ l₁ hc₁ c₂ l₂ hc₂]

/-- A substring of the variable middle of the text template survives the final
trim. -/
theorem substrOf_trimmed_text (sub name email phone tup ti itemsText sa : String)
    (h : SubstrOf sub (textBodyMid name email phone tup ti itemsText sa)) :
    SubstrOf sub (jsTrimString (textBodyTemplate name email phone tup ti itemsText sa)) := by
  obtain ⟨p, q, hp⟩ := h
  have h₁ : List.dropWhile isWs textSegHead.data ≠ [] := by decide
  have h₂ : List.dropWhile isWs textSegTail.data.reverse ≠ [] := by decide
  refine ⟨List.dropWhile isWs textSegHead.data ++ p, q ++ dropTrailingWs textSegTail.data, ?_⟩
  show trimChars (textBodyTemplate name email phone tup ti itemsText sa).data = _
  rw [textBodyTemplate, String.data_append, String.data_append,
    trimChars_between _ _ _ h₁ h₂, hp]
  simp

theorem pure_ok {α : Type} (a : α) : (pure a : Except String α) = .ok a := rfl

/-! ### Validator lemmas -/

theorem truthy_not_nullish (v : JSValue) (h : truthy v = true) : isNullish v = false := by
  cases v <;> simp_all [truthy, isNullish]

theorem getProp_ok (v : JSValue) (k : String) (h : isNullish v = false) :
    getProp v k = .ok (getPropD v k) := by
  cases v
  case null => simp [isNullish] at h
  case undefined => simp [isNullish] at h
  all_goals rfl

theorem getProp_ok_any (v : JSValue) (k k2 : String) (x : JSValue)
    (h : getProp v k = .ok x) : getProp v k2 = .ok (getPropD v k2) := by
  cases v
  case null => exact absurd h (by simp [getProp])
  case undefined => exact absurd h (by simp [getProp])
  all_goals rfl

theorem getPropD_of_getProp (v : JSValue) (k : String) (x : JSValue)
    (h : getProp v k = .ok x) : getPropD v k = x := by
  simp [getPropD, h]

/-- Whenever validatePayload returns a list at all, the list splits into the
contact, items and agreement error groups the source pushes in order. -/
theorem validatePayload_ok_split (body : JSValue) (errs : List String)
    (h : validatePayload body = .ok errs) :
    ∃ cErrs iErrs,
      errs = cErrs ++ iErrs ++ agreedToContactErrs (getPropD body "agreedToContact") ∧
      ((truthy (getPropD body "contactInfo") = true ∧
          validateContact (getPropD body "contactInfo") = .ok cErrs) ∨
        (truthy (getPropD body "contactInfo") = false ∧ cErrs = ["contactInfo is required"])) ∧
      validateQuoteItems (getPropD body "quoteItems") = .ok iErrs := by
  unfold validatePayload at h
  cases hci : getProp body "contactInfo" with
  | error e => rw [hci, error_bind] at h; exact absurd h (by simp)
  | ok ci =>
  rw [hci, ok_bind] at h
  have hciD := getPropD_of_getProp body "contactInfo" ci hci
  have hqiO := getProp_ok_any body "contactInfo" "quoteItems" ci hci
  have hagO := getProp_ok_any body "contactInfo" "agreedToContact" ci hci
  by_cases ht : truthy ci
  · rw [if_pos ht] at h
    cases hvc : validateContact ci with
    | error e => rw [hvc, error_bind] at h; exact absurd h (by simp)
    | ok ce =>
    rw [hvc, ok_bind] at h
    try simp only [] at h
    rw [hqiO, ok_bind] at h
    try simp only [] at h
    cases hvq : validateQuoteItems (getPropD body "quoteItems") with
    | error e => rw [hvq, error_bind] at h; exact absurd h (by simp)
    | ok ie =>
    rw [hvq, ok_bind] at h
    try simp only [] at h
    rw [hagO, ok_bind] at h
    try simp only [] at h
    refine ⟨ce, ie, ?_, Or.inl ⟨hciD ▸ ht, hciD ▸ hvc⟩, rfl⟩
    rw [pure_ok] at h
    exact (Except.ok.inj h).symm
  · rw [if_neg ht] at h
    rw [pure_ok, ok_bind] at h
    try simp only [] at h
    rw [hqiO, ok_bind] at h
    try simp only [] at h
    cases hvq : validateQuoteItems (getPropD body "quoteItems") with
    | error e => rw [hvq, error_bind] at h; exact absurd h (by simp)
    | ok ie =>
    rw [hvq, ok_bind] at h
    try simp only [] at h
    rw [hagO, ok_bind] at h
    try simp only [] at h
    refine ⟨["contactInfo is required"], ie, ?_,
      Or.inr ⟨hciD ▸ Bool.of_not_eq_true ht, rfl⟩, rfl⟩
    rw [pure_ok] at h
    exact (Except.ok.inj h).symm

theorem agreedToContactErrs_of_bad (v : JSValue) (h : specAgreedOk v = false) :
    agreedToContactErrs v = ["agreedToContact must be true"] := by
  cases v with
  | bool b => cases b <;> simp_all [specAgreedOk, agreedToContactErrs]
  | _ => rfl

theorem agreedToContactErrs_nil_iff (v : JSValue) :
    agreedToContactErrs v = [] ↔ specAgreedOk v = true := by
  cases v with
  | bool b => cases b <;> simp [specAgreedOk, agreedToContactErrs]
  | null => simp [specAgreedOk, agreedToContactErrs]
  | undefined => simp [specAgreedOk, agreedToContactErrs]
  | num q => simp [specAgreedOk, agreedToContactErrs]
  | str s => simp [specAgreedOk, agreedToContactErrs]
  | arr l => simp [specAgreedOk, agreedToContactErrs]
  | obj f => simp [specAgreedOk, agreedToContactErrs]

theorem checkRequiredTrimmed_spec (v : JSValue) (msg : String)
    (h : safeContactField v = true) :
    ∃ errs, checkRequiredTrimmed v msg = .ok errs ∧
      (errs = [] ↔ specTrimmedNonEmptyString v = true) := by
  cases v with
  | str s =>
    by_cases hs : s = ""
    · subst hs
      exact ⟨[msg], rfl,
        by simp [specTrimmedNonEmptyString, jsTrimString, trimChars, dropTrailingWs]⟩
    · by_cases htr : jsTrimString s = ""
      · refine ⟨[msg], ?_, by simp [specTrimmedNonEmptyString, htr]⟩
        unfold checkRequiredTrimmed
        rw [if_pos (by simp [truthy, hs]),
          show jsTrim (JSValue.str s) = Except.ok (jsTrimString s) from rfl, ok_bind]
        try simp only []
        rw [if_pos (by simp [htr])]
        rfl
      · refine ⟨[], ?_, by simp [specTrimmedNonEmptyString, htr]⟩
        unfold checkRequiredTrimmed
        rw [if_pos (by simp [truthy, hs]),
          show jsTrim (JSValue.str s) = Except.ok (jsTrimString s) from rfl, ok_bind]
        try simp only []
        rw [if_neg (by simp [htr])]
        rfl
  | null => exact ⟨[msg], rfl, by simp [specTrimmedNonEmptyString]⟩
  | undefined => exact ⟨[msg], rfl, by simp [specTrimmedNonEmptyString]⟩
  | bool b =>
    cases b
    · exact ⟨[msg], rfl, by simp [specTrimmedNonEmptyString]⟩
    · simp [safeContactField, truthy, isStringValue] at h
  | num q =>
    by_cases hq : q = 0
    · subst hq
      exact ⟨[msg], rfl, by simp [specTrimmedNonEmptyString]⟩
    · simp [safeContactField, truthy, isStringValue, hq] at h
  | arr l => simp [safeContactField, truthy, isStringValue] at h
  | obj f => simp [safeContactField, truthy, isStringValue] at h

theorem checkEmail_spec (v : JSValue) (h : safeContactField v = true) :
    ∃ errs, checkEmail v = .ok errs ∧ (errs = [] ↔ specEmailField v = true) := by
  cases v with
  | str s =>
    by_cases hs : s = ""
    · subst hs
      exact ⟨["email is required"], rfl,
        by simp [specEmailField, jsTrimString, trimChars, dropTrailingWs]⟩
    · by_cases h1 : jsTrimString s = ""
      · refine ⟨["email is required"], ?_, by simp [specEmailField, h1]⟩
        unfold checkEmail
        rw [if_pos (by simp [truthy, hs]),
          show jsTrim (JSValue.str s) = Except.ok (jsTrimString s) from rfl, ok_bind]
        try simp only []
        rw [if_pos (by simp [h1])]
        rfl
      · by_cases h2 : jsEmailRegexTest s
        · refine ⟨[], ?_, by simp [specEmailField, h1, h2]⟩
          unfold checkEmail
          rw [if_pos (by simp [truthy, hs]),
            show jsTrim (JSValue.str s) = Except.ok (jsTrimString s) from rfl, ok_bind]
          try simp only []
          rw [if_neg (by simp [h1])]
          show (if jsEmailRegexTest s then pure [] else pure ["email is invalid"] :
            Except String (List String)) = _
          rw [if_pos h2]
          rfl
        · refine ⟨["email is invalid"], ?_, by simp [specEmailField, h1, h2]⟩
          unfold checkEmail
          rw [if_pos (by simp [truthy, hs]),
            show jsTrim (JSValue.str s) = Except.ok (jsTrimString s) from rfl, ok_bind]
          try simp only []
          rw [if_neg (by simp [h1])]
          show (if jsEmailRegexTest s then pure [] else pure ["email is invalid"] :
            Except String (List String)) = _
          rw [if_neg h2]
          rfl
  | null => exact ⟨["email is required"], rfl, by simp [specEmailField]⟩
  | undefined => exact ⟨["email is required"], rfl, by simp [specEmailField]⟩
  | bool b =>
    cases b
    · exact ⟨["email is required"], rfl, by simp [specEmailField]⟩
    · simp [safeContactField, truthy, isStringValue] at h
  | num q =>
    by_cases hq : q = 0
    · subst hq
      exact ⟨["email is required"], rfl, by simp [specEmailField]⟩
    · simp [safeContactField, truthy, isStringValue, hq] at h
  | arr l => simp [safeContactField, truthy, isStringValue] at h
  | obj f => simp [safeContactField, truthy, isStringValue] at h

theorem validateContact_spec (ci : JSValue) (hci : truthy ci = true)
    (hn : safeContactField (getPropD ci "name") = true)
    (he : safeContactField (getPropD ci "email") = true)
    (hp : safeContactField (getPropD ci "phone") = true) :
    ∃ errs, validateContact ci = .ok errs ∧ (errs = [] ↔ specContactOk ci = true) := by
  have hnn := truthy_not_nullish ci hci
  obtain ⟨e1, he1, hiff1⟩ := checkRequiredTrimmed_spec _ "name is required" hn
  obtain ⟨e2, he2, hiff2⟩ := checkEmail_spec _ he
  obtain ⟨e3, he3, hiff3⟩ := checkRequiredTrimmed_spec _ "phone is required" hp
  refine ⟨e1 ++ e2 ++ e3, ?_, ?_⟩
  · unfold validateContact
    rw [getProp_ok ci "name" hnn, ok_bind]
    try simp only []
    rw [he1, ok_bind]
    try simp only []
    rw [getProp_ok ci "email" hnn, ok_bind]
    try simp only []
    rw [he2, ok_bind]
    try simp only []
    rw [getProp_ok ci "phone" hnn, ok_bind]
    try simp only []
    rw [he3, ok_bind]
    rfl
  · constructor
    · intro hnil
      rcases List.append_eq_nil.mp hnil with ⟨h12, h3⟩
      rcases List.append_eq_nil.mp h12 with ⟨h1, h2⟩
      simp [specContactOk, hci, hiff1.mp h1, hiff2.mp h2, hiff3.mp h3]
    · intro hspec
      simp only [specContactOk, Bool.and_eq_true] at hspec
      rw [hiff1.mpr hspec.1.1.2, hiff2.mpr hspec.1.2, hiff3.mpr hspec.2]
      rfl

theorem validateItems_spec (items : List JSValue) : ∀ (k : Nat),
    (∀ it ∈ items, isNullish it = false) →
    ∃ errs, validateItems k items = .ok errs ∧
      (errs = [] ↔ items.all specItemOk = true) := by
  induction items with
  | nil => exact fun k _ => ⟨[], rfl, by simp⟩
  | cons x xs ih =>
    intro k hnn
    obtain ⟨rest, hrest, hiff⟩ := ih (k + 1) (fun it hit => hnn it (List.mem_cons_of_mem _ hit))
    have hx : isNullish x = false := hnn x (List.mem_cons_self x xs)
    refine ⟨(if truthy (getPropD x "productName") then []
        else ["quoteItems[" ++ toString k ++ "].productName is required"]) ++
      ((if quantityOk (getPropD x "quantity") then []
        else ["quoteItems[" ++ toString k ++ "].quantity must be a positive number"]) ++ rest),
      ?_, ?_⟩
    · show validateItems k (x :: xs) = _
      unfold validateItems
      rw [getProp_ok x "productName" hx, ok_bind]
      try simp only []
      rw [getProp_ok x "quantity" hx, ok_bind]
      try simp only []
      rw [hrest, ok_bind]
      try simp only []
      rw [show ∀ a b c : List String, a ++ b ++ c = a ++ (b ++ c) from
        fun a b c => List.append_assoc a b c]
      rfl
    · constructor
      · intro hnil
        rcases List.append_eq_nil.mp hnil with ⟨h1, h23⟩
        rcases List.append_eq_nil.mp h23 with ⟨h2, h3⟩
        have hq1 : truthy (getPropD x "productName") = true := by
          by_contra hc
          rw [if_neg hc] at h1
          exact absurd h1 (by simp)
        have hq2 : quantityOk (getPropD x "quantity") = true := by
          by_contra hc
          rw [if_neg hc] at h2
          exact absurd h2 (by simp)
        simp [List.all_cons, specItemOk, hq1, hq2, hiff.mp h3]
      · intro hall
        simp only [List.all_cons, Bool.and_eq_true, specItemOk] at hall
        rw [if_pos hall.1.1, if_pos hall.1.2, hiff.mpr hall.2]
        rfl

theorem validateQuoteItems_spec (qv : JSValue)
    (hsafe : ∀ items, qv = .arr items → ∀ it ∈ items, isNullish it = false) :
    ∃ errs, validateQuoteItems qv = .ok errs ∧ (errs = [] ↔ specItemsOk qv = true) := by
  cases qv with
  | arr items =>
    cases items with
    | nil => exact ⟨["quoteItems cannot be empty"], rfl, by simp [specItemsOk]⟩
    | cons x xs =>
      obtain ⟨errs, herrs, hiff⟩ :=
        validateItems_spec (x :: xs) 0 (hsafe (x :: xs) rfl)
      exact ⟨errs, herrs, by rw [hiff]; simp [specItemsOk]⟩
  | null => exact ⟨["quoteItems must be an array"], rfl, by simp [specItemsOk]⟩
  | undefined => exact ⟨["quoteItems must be an array"], rfl, by simp [specItemsOk]⟩
  | bool b => exact ⟨["quoteItems must be an array"], rfl, by simp [specItemsOk]⟩
  | num q => exact ⟨["quoteItems must be an array"], rfl, by simp [specItemsOk]⟩
  | str s => exact ⟨["quoteItems must be an array"], rfl, by simp [specItemsOk]⟩
  | obj f => exact ⟨["quoteItems must be an array"], rfl, by simp [specItemsOk]⟩

theorem validateItems_ok_mem : ∀ (items : List JSValue) (k : Nat) (iErrs : List String),
    validateItems k items = .ok iErrs → ∀ (j : Nat) (hj : j < items.length),
    (∀ pv, getProp (items.get ⟨j, hj⟩) "productName" = .ok pv → truthy pv = false →
      "quoteItems[" ++ toString (k + j) ++ "].productName is required" ∈ iErrs) ∧
    (∀ qv, getProp (items.get ⟨j, hj⟩) "quantity" = .ok qv → quantityOk qv = false →
      "quoteItems[" ++ toString (k + j) ++ "].quantity must be a positive number" ∈ iErrs) := by
  intro items
  induction items with
  | nil => intro k iErrs h j hj; exact absurd hj (by simp)
  | cons x xs ih =>
    intro k iErrs h j hj
    unfold validateItems at h
    cases hp : getProp x "productName" with
    | error e => rw [hp, error_bind] at h; exact absurd h (by simp)
    | ok pv0 =>
    rw [hp, ok_bind] at h
    try simp only [] at h
    cases hq : getProp x "quantity" with
    | error e => rw [hq, error_bind] at h; exact absurd h (by simp)
    | ok qv0 =>
    rw [hq, ok_bind] at h
    try simp only [] at h
    cases hr : validateItems (k + 1) xs with
    | error e => rw [hr, error_bind] at h; exact absurd h (by simp)
    | ok rest =>
    rw [hr, ok_bind] at h
    try simp only [] at h
    rw [pure_ok] at h
    have herrs : iErrs =
        (if truthy pv0 then []
         else ["quoteItems[" ++ toString k ++ "].productName is required"]) ++
        (if quantityOk qv0 then []
         else ["quoteItems[" ++ toString k ++ "].quantity must be a positive number"]) ++
        rest := (Except.ok.inj h).symm
    cases j with
    | zero =>
      rw [herrs]
      constructor
      · intro pv hpv hfalse
        have hpv0 : pv0 = pv := Except.ok.inj (hp ▸ hpv)
        subst hpv0
        have hmem : "quoteItems[" ++ toString k ++ "].productName is required" ∈
            (if truthy pv0 then []
             else ["quoteItems[" ++ toString k ++ "].productName is required"]) := by
          rw [if_neg (by simp [hfalse])]
          exact List.mem_singleton_self _
        exact List.mem_append_left _ (List.mem_append_left _ hmem)
      · intro qv hqv hfalse
        have hqv0 : qv0 = qv := Except.ok.inj (hq ▸ hqv)
        subst hqv0
        have hmem : "quoteItems[" ++ toString k ++ "].quantity must be a positive number" ∈
            (if quantityOk qv0 then []
             else ["quoteItems[" ++ toString k ++ "].quantity must be a positive number"]) := by
          rw [if_neg (by simp [hfalse])]
          exact List.mem_singleton_self _
        exact List.mem_append_left _ (List.mem_append_right _ hmem)
    | succ j' =>
      have hj' : j' < xs.length := by simpa using hj
      have hrec := ih (k + 1) rest hr j' hj'
      have hidx : k + (j' + 1) = (k + 1) + j' := by omega
      constructor
      · intro pv hpv hfalse
        have hm := hrec.1 pv hpv hfalse
        rw [herrs, hidx]
        exact List.mem_append_right _ hm
      · intro qv hqv hfalse
        have hm := hrec.2 qv hqv hfalse
        rw [herrs, hidx]
        exact List.mem_append_right _ hm

/-! ### The renderer on declared payloads -/

theorem itemRowsHtml_toJS (items : List QuoteItem) :
    itemRowsHtml (items.map QuoteItem.toJS) = .ok (items.map declaredItemRowHtml) := by
  induction items with
  | nil => rfl
  | cons it rest ih =>
    rw [List.map_cons]
    have hstep : itemRowsHtml (QuoteItem.toJS it :: List.map QuoteItem.toJS rest) =
        (itemRowsHtml (List.map QuoteItem.toJS rest)) >>= (fun restRows =>
          Except.ok (declaredItemRowHtml it :: restRows)) := rfl
    rw [hstep, ih]
    rfl

theorem itemLinesText_toJS (items : List QuoteItem) :
    itemLinesText (items.map QuoteItem.toJS) = .ok (items.map declaredItemLineText) := by
  induction items with
  | nil => rfl
  | cons it rest ih =>
    rw [List.map_cons]
    have hstep : itemLinesText (QuoteItem.toJS it :: List.map QuoteItem.toJS rest) =
        (itemLinesText (List.map QuoteItem.toJS rest)) >>= (fun restLines =>
          Except.ok (declaredItemLineText it :: restLines)) := rfl
    rw [hstep, ih]
    rfl

/-- On the runtime value of any declared payload, generateEmailContent
succeeds and produces exactly the closed-form subject and bodies. -/
theorem generateEmailContent_toJS (q : QuoteRequestPayload) :
    generateEmailContent q.toJS =
      .ok ⟨renderedSubject q, renderedHtmlBody q, renderedTextBody q⟩ := by
  have hshape : generateEmailContent q.toJS =
      ((itemRowsHtml (q.quoteItems.map QuoteItem.toJS)) >>= (fun rows =>
        Except.ok (quoteItemsTableHtml (String.join rows)
          (jsNumToString q.metadata.totalItems)))) >>= (fun itemsHtml =>
      ((itemLinesText (q.quoteItems.map QuoteItem.toJS)) >>= (fun lines =>
        Except.ok (String.intercalate "\n" lines))) >>= (fun itemsText =>
          Except.ok ⟨renderedSubject q,
            htmlBodyTemplate q.contactInfo.name q.contactInfo.email
              q.contactInfo.phone itemsHtml q.metadata.submittedAt,
            jsTrimString
              (textBodyTemplate q.contactInfo.name q.contactInfo.email q.contactInfo.phone
                (jsNumToString q.metadata.totalUniqueProducts)
                (jsNumToString q.metadata.totalItems)
                itemsText q.metadata.submittedAt)⟩)) := rfl
  rw [hshape, itemRowsHtml_toJS, itemLinesText_toJS, ok_bind, ok_bind, ok_bind, ok_bind]
  rfl

/-! ### Claim C1 -/

set_option maxRecDepth 20000 in
set_option maxHeartbeats 2000000 in
/-- Claim C1 counterexample: for the scenario-5 items (A times 3, B times 5)
with client-supplied metadata.totalItems = 999, the rendered text body
displays the total figure 999 and does not display the recomputed sum 8 —
the total is not recomputed by the renderer and is not independent of
metadata.totalItems. -/
theorem displayedTotalCounterexample :
    ∃ c, generateEmailContent (exampleQuote 999).toJS = Except.ok c ∧
      SubstrOf (displayedTextTotal "999") c.textBody ∧
      strContains c.textBody (displayedTextTotal "8") = false := by
  refine ⟨_, generateEmailContent_toJS (exampleQuote 999), ?_, ?_⟩
  · show SubstrOf _ (renderedTextBody (exampleQuote 999))
    unfold renderedTextBody
    apply substrOf_trimmed_text
    unfold textBodyMid
    apply substrOf_right
    apply substrOf_right
    apply substrOf_right
    apply substrOf_left
    exact substrOf_self _
  · rfl

/-- Claim C1 (amended): the total-quantity figure displayed in both the HTML
and text bodies is the client-supplied metadata.totalItems value, interpolated
as is; the renderer does not recompute the sum of the item quantities. -/
theorem displayedTotalIsClientTotalItems (q : QuoteRequestPayload) :
    ∃ c, generateEmailContent q.toJS = Except.ok c ∧
      SubstrOf (displayedTextTotal (jsNumToString q.metadata.totalItems)) c.textBody ∧
      SubstrOf (displayedHtmlTotal (jsNumToString q.metadata.totalItems)) c.htmlBody := by
  refine ⟨_, generateEmailContent_toJS q, ?_, ?_⟩
  · show SubstrOf _ (renderedTextBody q)
    unfold renderedTextBody
    apply substrOf_trimmed_text
    unfold textBodyMid
    apply substrOf_right
    apply substrOf_right
    apply substrOf_right
    apply substrOf_left
    exact substrOf_self _
  · show SubstrOf _ (renderedHtmlBody q)
    unfold renderedHtmlBody htmlBodyTemplate quoteItemsTableHtml
    apply substrOf_right
    apply substrOf_right
    apply substrOf_right
    apply substrOf_left
    apply substrOf_left
    exact substrOf_self _

/-! ### Claim C2 -/

/-- Claim C2 counterexample: JSON.parse can return null (request body "null"),
and on null the validator throws a TypeError at its very first property read
instead of returning a diagnostic list. -/
theorem validatorThrowsOnNull :
    validatePayload JSValue.null =
      .error "TypeError: Cannot read properties of null (reading contactInfo)" := rfl

/-- Claim C2 (amended): the validator terminates normally and returns the
diagnostic list (empty exactly when the payload is valid in the sense of the
spec) provided the value is not null/undefined, every truthy contactInfo field
is a string, and no element of a quoteItems array is null/undefined; outside
that class it can throw a TypeError. -/
theorem validatorReturnsListOnSafeShapes (raw : JSValue) (h : safeShape raw = true) :
    ∃ errs, validatePayload raw = .ok errs ∧ (errs = [] ↔ specValidPayload raw = true) := by
  simp only [safeShape, Bool.and_eq_true, Bool.or_eq_true, Bool.not_eq_true'] at h
  obtain ⟨⟨h1, h2⟩, h3⟩ := h
  have h3' : ∀ items, getPropD raw "quoteItems" = .arr items →
      ∀ it ∈ items, isNullish it = false := by
    intro items hitems it hit
    rw [hitems] at h3
    rw [show safeItemsShape (.arr items) = items.all (fun item => !isNullish item) from rfl] at h3
    simpa using List.all_eq_true.mp h3 it hit
  obtain ⟨ie, hie, hiiff⟩ := validateQuoteItems_spec _ h3'
  unfold validatePayload
  rw [getProp_ok raw "contactInfo" h1, ok_bind]
  try simp only []
  by_cases ht : truthy (getPropD raw "contactInfo") = true
  · rcases h2 with h2 | h2
    · exact absurd ht (by simp [h2])
    obtain ⟨ce, hce, hciff⟩ := validateContact_spec _ ht h2.1.1 h2.1.2 h2.2
    rw [if_pos ht, hce, ok_bind]
    try simp only []
    rw [getProp_ok raw "quoteItems" h1, ok_bind]
    try simp only []
    rw [hie, ok_bind]
    try simp only []
    rw [getProp_ok raw "agreedToContact" h1, ok_bind]
    try simp only []
    rw [pure_ok]
    refine ⟨ce ++ ie ++ agreedToContactErrs (getPropD raw "agreedToContact"), rfl, ?_⟩
    constructor
    · intro hnil
      rcases List.append_eq_nil.mp hnil with ⟨h12, hA⟩
      rcases List.append_eq_nil.mp h12 with ⟨hC, hI⟩
      simp [specValidPayload, hciff.mp hC, hiiff.mp hI,
        (agreedToContactErrs_nil_iff _).mp hA]
    · intro hv
      simp only [specValidPayload, Bool.and_eq_true] at hv
      rw [hciff.mpr hv.1.1, hiiff.mpr hv.1.2, (agreedToContactErrs_nil_iff _).mpr hv.2]
      rfl
  · rw [if_neg ht, pure_ok, ok_bind]
    try simp only []
    rw [getProp_ok raw "quoteItems" h1, ok_bind]
    try simp only []
    rw [hie, ok_bind]
    try simp only []
    rw [getProp_ok raw "agreedToContact" h1, ok_bind]
    try simp only []
    rw [pure_ok]
    refine ⟨["contactInfo is required"] ++ ie ++
      agreedToContactErrs (getPropD raw "agreedToContact"), rfl, ?_⟩
    constructor
    · intro hnil
      exact absurd hnil (by simp)
    · intro hv
      simp only [specValidPayload, specContactOk, Bool.and_eq_true] at hv
      exact absurd hv.1.1.1.1.1 ht

/-- Witness for claim C2: the scenario-1 payload has a safe shape, and on it
the validator returns a list that is empty exactly when the payload is
spec-valid. -/
theorem validatorReturnsListOnSafeShapesWitness :
    safeShape (exampleQuote 2).toJS = true ∧
    (∃ errs, validatePayload (exampleQuote 2).toJS = .ok errs ∧
      (errs = [] ↔ specValidPayload (exampleQuote 2).toJS = true)) :=
  ⟨rfl, validatorReturnsListOnSafeShapes (exampleQuote 2).toJS rfl⟩

/-! ### Claim C6 -/

/-- Claim C6 counterexample: a payload whose agreedToContact is false but
whose contactInfo.name is the truthy number 5 makes the validator throw at
name.trim() — no error list (and no agreement error) is returned even though
agreedToContact is not true. -/
theorem validatorThrowsDespiteAgreedFalse :
    validatePayload truthyNonStringNameBody =
      .error "TypeError: trim is not a function" := rfl

/-- Claim C6 (amended): whenever the validator returns a list at all, and the
agreedToContact value is not the boolean true, the returned list contains the
agreement error and is in particular non-empty, regardless of every other
field. -/
theorem agreementErrorWheneverListReturned (body : JSValue) (errs : List String)
    (h : validatePayload body = .ok errs)
    (hbad : specAgreedOk (getPropD body "agreedToContact") = false) :
    "agreedToContact must be true" ∈ errs ∧ errs ≠ [] := by
  obtain ⟨ce, ie, heq, _, _⟩ := validatePayload_ok_split body errs h
  subst heq
  rw [agreedToContactErrs_of_bad _ hbad]
  refine ⟨List.mem_append_right _ (List.mem_singleton_self _), ?_⟩
  exact List.ne_nil_of_mem (List.mem_append_right _ (List.mem_singleton_self _))

/-- Witness for claim C6: the empty object has no agreedToContact, and the
returned list contains the agreement error. -/
theorem agreementErrorWheneverListReturnedWitness :
    "agreedToContact must be true" ∈
      (["contactInfo is required", "quoteItems must be an array",
        "agreedToContact must be true"] : List String) ∧
    (["contactInfo is required", "quoteItems must be an array",
      "agreedToContact must be true"] : List String) ≠ [] :=
  agreementErrorWheneverListReturned (JSValue.obj []) _ rfl rfl

/-! ### Claim C7 -/

/-- Claim C7 counterexample: an items array containing a null entry (followed
by an entry with quantity 0) makes the validator throw at the null entry's
productName read — no index-specific errors are emitted for any offending
index, and no list is returned. -/
theorem validatorThrowsOnNullItem :
    validatePayload nullItemBody =
      .error "TypeError: Cannot read properties of null (reading productName)" := rfl

/-- Claim C7 (amended): whenever the validator returns a list at all and
quoteItems is a non-empty array, then for every index whose entry has a falsy
productName the list contains that index's productName error, and for every
index whose entry's quantity is not a number at least 1 the list contains that
index's quantity error — all offending indices are reported, not just the
first. -/
theorem everyOffendingIndexReported (body : JSValue) (errs : List String)
    (items : List JSValue) (h : validatePayload body = .ok errs)
    (hitems : getPropD body "quoteItems" = .arr items) (hne : items ≠ [])
    (j : Nat) (hj : j < items.length) :
    (∀ pv, getProp (items.get ⟨j, hj⟩) "productName" = .ok pv → truthy pv = false →
      "quoteItems[" ++ toString j ++ "].productName is required" ∈ errs) ∧
    (∀ qv, getProp (items.get ⟨j, hj⟩) "quantity" = .ok qv → quantityOk qv = false →
      "quoteItems[" ++ toString j ++ "].quantity must be a positive number" ∈ errs) := by
  obtain ⟨ce, ie, heq, _, hqi⟩ := validatePayload_ok_split body errs h
  rw [hitems] at hqi
  have hvi : validateItems 0 items = .ok ie := by
    cases items with
    | nil => exact absurd rfl hne
    | cons x xs => exact hqi
  have hmem := validateItems_ok_mem items 0 ie hvi j hj
  subst heq
  constructor
  · intro pv hpv hf
    have hm := hmem.1 pv hpv hf
    simp only [Nat.zero_add] at hm
    exact List.mem_append_left _ (List.mem_append_right _ hm)
  · intro qv hqv hf
    have hm := hmem.2 qv hqv hf
    simp only [Nat.zero_add] at hm
    exact List.mem_append_left _ (List.mem_append_right _ hm)

/-- Witness for claim C7: with two malformed items (index 0 without a
productName and with quantity 0, index 1 with a string quantity), each
offending index's errors are in the returned list. -/
theorem everyOffendingIndexReportedWitness :
    ("quoteItems[0].productName is required" ∈
      (["quoteItems[0].productName is required",
        "quoteItems[0].quantity must be a positive number",
        "quoteItems[1].quantity must be a positive number"] : List String)) ∧
    ("quoteItems[0].quantity must be a positive number" ∈
      (["quoteItems[0].productName is required",
        "quoteItems[0].quantity must be a positive number",
        "quoteItems[1].quantity must be a positive number"] : List String)) ∧
    ("quoteItems[1].quantity must be a positive number" ∈
      (["quoteItems[0].productName is required",
        "quoteItems[0].quantity must be a positive number",
        "quoteItems[1].quantity must be a positive number"] : List String)) :=
  ⟨(everyOffendingIndexReported twoBadItemsBody _ _ rfl rfl
      (List.cons_ne_nil _ _) 0 (by decide)).1 _ rfl rfl,
   (everyOffendingIndexReported twoBadItemsBody _ _ rfl rfl
      (List.cons_ne_nil _ _) 0 (by decide)).2 _ rfl rfl,
   (everyOffendingIndexReported twoBadItemsBody _ _ rfl rfl
      (List.cons_ne_nil _ _) 1 (by decide)).2 _ rfl rfl⟩

/-! ### Intake-handler lemmas -/

theorem handlerAttempt_parse_fail (qu : Option String) (send : SqsMessage → Except String Unit)
    (rb : Option String) (h : jsonParse (effectiveBody rb) = none) :
    handlerAttempt qu send rb = (.ok invalidJsonResponse, []) := by
  unfold handlerAttempt
  rw [h]

theorem handlerAttempt_validate_throw (qu : Option String)
    (send : SqsMessage → Except String Unit) (rb : Option String) (body : JSValue) (e : String)
    (hp : jsonParse (effectiveBody rb) = some body) (hv : validatePayload body = .error e) :
    handlerAttempt qu send rb = (.error e, []) := by
  unfold handlerAttempt
  rw [hp]
  simp only [hv]

theorem handlerAttempt_validation_fail (qu : Option String)
    (send : SqsMessage → Except String Unit) (rb : Option String) (body : JSValue)
    (errs : List String) (hp : jsonParse (effectiveBody rb) = some body)
    (hv : validatePayload body = .ok errs) (hne : errs ≠ []) :
    handlerAttempt qu send rb = (.ok (validationFailedResponse errs), []) := by
  unfold handlerAttempt
  rw [hp]
  simp only [hv]
  rw [if_pos (by cases errs with | nil => exact absurd rfl hne | cons a l => simp)]

theorem contactEmailOf_of_valid (body : JSValue) (h : validatePayload body = .ok []) :
    contactEmailOf body = .ok (getPropD (getPropD body "contactInfo") "email") := by
  obtain ⟨ce, ie, heq, hcontact, _⟩ := validatePayload_ok_split body [] h
  have hce : ce = [] := by
    rcases List.append_eq_nil.mp ((List.append_eq_nil.mp heq.symm).1) with ⟨h1, _⟩
    exact h1
  rcases hcontact with ⟨ht, _⟩ | ⟨_, hcontra⟩
  · have hnn : isNullish body = false := by
      cases body
      case null =>
        exact Except.noConfusion (show Except.error
          "TypeError: Cannot read properties of null (reading contactInfo)" =
            (Except.ok [] : Except String (List String)) from h)
      case undefined =>
        exact Except.noConfusion (show Except.error
          "TypeError: Cannot read properties of undefined (reading contactInfo)" =
            (Except.ok [] : Except String (List String)) from h)
      all_goals rfl
    unfold contactEmailOf
    rw [getProp_ok body "contactInfo" hnn, ok_bind]
    try simp only []
    rw [getProp_ok _ "email" (truthy_not_nullish _ ht)]
  · rw [hcontra] at hce
    exact absurd hce (by simp)

theorem handlerAttempt_valid (qu : Option String) (send : SqsMessage → Except String Unit)
    (rb : Option String) (body : JSValue) (em : JSValue) (msg : SqsMessage)
    (hp : jsonParse (effectiveBody rb) = some body)
    (hv : validatePayload body = .ok []) (hem : contactEmailOf body = .ok em)
    (hmsg : msg = ⟨qu, jsonStringify body, em⟩) :
    handlerAttempt qu send rb =
      (match send msg with
       | .ok _ => (.ok successResponse, [msg])
       | .error e => (.error e, [msg])) := by
  subst hmsg
  unfold handlerAttempt
  rw [hp]
  simp only [hv, hem]
  rw [if_neg (by simp)]
  cases send ⟨qu, jsonStringify body, em⟩ <;> rfl

theorem apiHandler_of_attempt_ok (qu : Option String) (send : SqsMessage → Except String Unit)
    (rb : Option String) (resp : ApiResponse) (msgs : List SqsMessage)
    (h : handlerAttempt qu send rb = (.ok resp, msgs)) :
    apiHandler qu send rb = (resp, msgs) := by
  unfold apiHandler
  rw [h]

theorem apiHandler_of_attempt_error (qu : Option String) (send : SqsMessage → Except String Unit)
    (rb : Option String) (e : String) (msgs : List SqsMessage)
    (h : handlerAttempt qu send rb = (.error e, msgs)) :
    apiHandler qu send rb = (serverErrorResponse, msgs) := by
  unfold apiHandler
  rw [h]

/-! ### Claim C3 -/

/-- Claim C3 counterexample: with every variable set except QUEUE_URL, the
api-handler module still loads successfully (carrying an absent queue URL), so
a missing queue URL is not a fatal startup error; the email-processor module,
whose two variables are present, also loads. -/
theorem queueUrlMissingDoesNotFailStartup :
    apiHandlerInit envWithoutQueueUrl = .ok none ∧
    emailProcessorInit envWithoutQueueUrl = .ok ("cfg@example.com", "cfg@example.com") :=
  ⟨rfl, rfl⟩

/-- Claim C3 (amended): the sales-rep and sender emails are checked through
getRequiredEnv at module load, so a missing (or empty) value throws before any
event is handled; the queue URL is read with no check, so the api-handler
module always loads, and a missing queue URL surfaces only per-request, as a
500 when the enqueue call fails. -/
theorem startupConfigHandling :
    (∀ env : String → Option String, env "SALES_REP_EMAIL" = none →
      emailProcessorInit env =
        .error "Missing required environment variable: SALES_REP_EMAIL") ∧
    (∀ (env : String → Option String) (v : String), env "SALES_REP_EMAIL" = some v → v ≠ "" →
      env "SENDER_EMAIL" = none →
      emailProcessorInit env =
        .error "Missing required environment variable: SENDER_EMAIL") ∧
    (∀ env : String → Option String, apiHandlerInit env = .ok (env "QUEUE_URL")) ∧
    (∀ (sendMessage : SqsMessage → Except String Unit) (rawBody : Option String)
        (body : JSValue) (e : String),
      jsonParse (effectiveBody rawBody) = some body → validatePayload body = .ok [] →
      (∀ m, sendMessage m = .error e) →
      (apiHandler none sendMessage rawBody).1 = serverErrorResponse) := by
  refine ⟨?_, ?_, fun env => rfl, ?_⟩
  · intro env h
    unfold emailProcessorInit getRequiredEnv
    rw [h]
    rfl
  · intro env v hv hne h
    simp [emailProcessorInit, getRequiredEnv, hv, h, hne]
    rfl
  · intro sendMessage rawBody body e hp hv hsend
    have hem := contactEmailOf_of_valid body hv
    have hatt := handlerAttempt_valid none sendMessage rawBody body _ _ hp hv hem rfl
    rw [hsend] at hatt
    rw [apiHandler_of_attempt_error _ _ _ _ _ hatt]

set_option maxRecDepth 20000 in
/-- Witness for claim C3: an empty environment makes the email processor throw
at load, and with no queue URL a valid scenario-1 request whose enqueue fails
gets the 500 response. -/
theorem startupConfigHandlingWitness :
    emailProcessorInit (fun _ => none) =
      .error "Missing required environment variable: SALES_REP_EMAIL" ∧
    (apiHandler none (fun _ => .error "QueueUrl is required") (some scenarioOneBody)).1 =
      serverErrorResponse :=
  ⟨startupConfigHandling.1 (fun _ => none) rfl,
   startupConfigHandling.2.2.2 (fun _ => .error "QueueUrl is required")
     (some scenarioOneBody) scenarioOneParsed "QueueUrl is required" rfl rfl
     (fun _ => rfl)⟩

/-! ### Claim C4 -/

/-- Claim C4: the intake handler's response is determined by the claimed case
split — 400 invalid JSON on parse failure, 400 with the full details on
validation errors, 200 on enqueue success, and 500 on any other failure (a
validator throw or an enqueue failure). -/
theorem intakeResponseDetermination (queueUrl : Option String)
    (sendMessage : SqsMessage → Except String Unit) (rawBody : Option String) :
    (jsonParse (effectiveBody rawBody) = none →
      (apiHandler queueUrl sendMessage rawBody).1 = invalidJsonResponse) ∧
    (∀ body errs, jsonParse (effectiveBody rawBody) = some body →
      validatePayload body = .ok errs → errs ≠ [] →
      (apiHandler queueUrl sendMessage rawBody).1 = validationFailedResponse errs) ∧
    (∀ body, jsonParse (effectiveBody rawBody) = some body →
      validatePayload body = .ok [] → (∀ m, sendMessage m = .ok ()) →
      (apiHandler queueUrl sendMessage rawBody).1 = successResponse) ∧
    (∀ body e, jsonParse (effectiveBody rawBody) = some body →
      validatePayload body = .error e →
      (apiHandler queueUrl sendMessage rawBody).1 = serverErrorResponse) ∧
    (∀ body e, jsonParse (effectiveBody rawBody) = some body →
      validatePayload body = .ok [] → (∀ m, sendMessage m = .error e) →
      (apiHandler queueUrl sendMessage rawBody).1 = serverErrorResponse) := by
  refine ⟨?_, ?_, ?_, ?_, ?_⟩
  · intro h
    rw [apiHandler_of_attempt_ok _ _ _ _ _ (handlerAttempt_parse_fail _ _ _ h)]
  · intro body errs hp hv hne
    rw [apiHandler_of_attempt_ok _ _ _ _ _
      (handlerAttempt_validation_fail _ _ _ _ _ hp hv hne)]
  · intro body hp hv hsend
    have hem := contactEmailOf_of_valid body hv
    have hatt := handlerAttempt_valid queueUrl sendMessage rawBody body _ _ hp hv hem rfl
    rw [hsend] at hatt
    rw [apiHandler_of_attempt_ok _ _ _ _ _ hatt]
  · intro body e hp hv
    rw [apiHandler_of_attempt_error _ _ _ _ _
      (handlerAttempt_validate_throw _ _ _ _ _ hp hv)]
  · intro body e hp hv hsend
    have hem := contactEmailOf_of_valid body hv
    have hatt := handlerAttempt_valid queueUrl sendMessage rawBody body _ _ hp hv hem rfl
    rw [hsend] at hatt
    rw [apiHandler_of_attempt_error _ _ _ _ _ hatt]

set_option maxRecDepth 20000 in
/-- Witness for claim C4: the scenario-1 body with a succeeding enqueue gets
the 200 success response; a malformed body gets the 400 invalid-JSON
response. -/
theorem intakeResponseDeterminationWitness :
    (apiHandler (some "https://queue.example") (fun _ => .ok ())
      (some scenarioOneBody)).1 = successResponse ∧
    (apiHandler (some "https://queue.example") (fun _ => .ok ())
      (some "\x7bnot json")).1 = invalidJsonResponse :=
  ⟨(intakeResponseDetermination (some "https://queue.example") (fun _ => .ok ())
      (some scenarioOneBody)).2.2.1 scenarioOneParsed rfl rfl (fun _ => rfl),
   (intakeResponseDetermination (some "https://queue.example") (fun _ => .ok ())
      (some "\x7bnot json")).1 rfl⟩

/-! ### Claim C5 -/

/-- Claim C5: exactly one SendMessage call, carrying the serialized request
and the contact email attribute, is issued when the body parses and validates
cleanly; no SendMessage call is issued on a parse failure or on validation
errors, and in particular none on any 400 response. -/
theorem enqueueDiscipline (queueUrl : Option String)
    (sendMessage : SqsMessage → Except String Unit) (rawBody : Option String) :
    (∀ body em, jsonParse (effectiveBody rawBody) = some body →
      validatePayload body = .ok [] → contactEmailOf body = .ok em →
      (apiHandler queueUrl sendMessage rawBody).2 =
        [⟨queueUrl, jsonStringify body, em⟩]) ∧
    (jsonParse (effectiveBody rawBody) = none →
      (apiHandler queueUrl sendMessage rawBody).2 = []) ∧
    (∀ body errs, jsonParse (effectiveBody rawBody) = some body →
      validatePayload body = .ok errs → errs ≠ [] →
      (apiHandler queueUrl sendMessage rawBody).2 = []) ∧
    ((apiHandler queueUrl sendMessage rawBody).1.statusCode = 400 →
      (apiHandler queueUrl sendMessage rawBody).2 = []) := by
  refine ⟨?_, ?_, ?_, ?_⟩
  · intro body em hp hv hem
    have hatt := handlerAttempt_valid queueUrl sendMessage rawBody body em _ hp hv hem rfl
    cases hsend : sendMessage ⟨queueUrl, jsonStringify body, em⟩ with
    | ok u =>
      cases u
      rw [hsend] at hatt
      rw [apiHandler_of_attempt_ok _ _ _ _ _ hatt]
    | error e =>
      rw [hsend] at hatt
      rw [apiHandler_of_attempt_error _ _ _ _ _ hatt]
  · intro h
    rw [apiHandler_of_attempt_ok _ _ _ _ _ (handlerAttempt_parse_fail _ _ _ h)]
  · intro body errs hp hv hne
    rw [apiHandler_of_attempt_ok _ _ _ _ _
      (handlerAttempt_validation_fail _ _ _ _ _ hp hv hne)]
  · intro h400
    cases hp : jsonParse (effectiveBody rawBody) with
    | none =>
      rw [apiHandler_of_attempt_ok _ _ _ _ _ (handlerAttempt_parse_fail _ _ _ hp)]
    | some body =>
      cases hv : validatePayload body with
      | error e =>
        rw [apiHandler_of_attempt_error _ _ _ _ _
          (handlerAttempt_validate_throw _ _ _ _ _ hp hv)]
      | ok errs =>
        cases herrs : errs with
        | nil =>
          subst herrs
          have hem := contactEmailOf_of_valid body hv
          have hatt := handlerAttempt_valid queueUrl sendMessage rawBody body _ _ hp hv hem rfl
          cases hsend : sendMessage ⟨queueUrl, jsonStringify body, _⟩ with
          | ok u =>
            cases u
            rw [hsend] at hatt
            rw [apiHandler_of_attempt_ok _ _ _ _ _ hatt] at h400
            exact absurd h400 (by simp [successResponse])
          | error e =>
            rw [hsend] at hatt
            rw [apiHandler_of_attempt_error _ _ _ _ _ hatt] at h400
            exact absurd h400 (by simp [serverErrorResponse])
        | cons a l =>
          subst herrs
          rw [apiHandler_of_attempt_ok _ _ _ _ _
            (handlerAttempt_validation_fail _ _ _ _ _ hp hv (by simp))]

set_option maxRecDepth 20000 in
/-- Witness for claim C5: the scenario-1 body yields exactly one SendMessage
call carrying the serialized payload and the submitter's email attribute; the
malformed body yields none. -/
theorem enqueueDisciplineWitness :
    (apiHandler (some "https://queue.example") (fun _ => .ok ())
      (some scenarioOneBody)).2 =
      [⟨some "https://queue.example", jsonStringify scenarioOneParsed,
        .str "jane@x.com"⟩] ∧
    (apiHandler (some "https://queue.example") (fun _ => .ok ())
      (some "\x7bnot json")).2 = [] :=
  ⟨(enqueueDiscipline (some "https://queue.example") (fun _ => .ok ())
      (some scenarioOneBody)).1 scenarioOneParsed (.str "jane@x.com") rfl rfl rfl,
   (enqueueDiscipline (some "https://queue.example") (fun _ => .ok ())
      (some "\x7bnot json")).2.1 rfl⟩

/-! ### Claim C8 -/

/-- Claim C8: the dispatcher returns normally only when every record was fully
processed; the first failing record's error propagates out of the handler (the
source catch rethrows), and a deserialize or render exception makes the record
fail. -/
theorem dispatcherPropagatesFailures (salesRepEmail senderEmail : String)
    (sendEmail : SendEmailCmd → Except String Unit) (records : List SqsRecord) :
    (emailProcessorHandler salesRepEmail senderEmail sendEmail records = .ok () ↔
      ∀ r ∈ records, processQuoteRecord salesRepEmail senderEmail sendEmail r = .ok ()) ∧
    (∀ pre r post e, records = pre ++ r :: post →
      (∀ r2 ∈ pre, processQuoteRecord salesRepEmail senderEmail sendEmail r2 = .ok ()) →
      processQuoteRecord salesRepEmail senderEmail sendEmail r = .error e →
      emailProcessorHandler salesRepEmail senderEmail sendEmail records = .error e) ∧
    (∀ r e, jsonParseOrThrow r.body = .error e →
      processQuoteRecord salesRepEmail senderEmail sendEmail r = .error e) ∧
    (∀ r v e, jsonParseOrThrow r.body = .ok v → generateEmailContent v = .error e →
      processQuoteRecord salesRepEmail senderEmail sendEmail r = .error e) := by
  refine ⟨?_, ?_, ?_, ?_⟩
  · induction records with
    | nil => simp [emailProcessorHandler]
    | cons r rest ih =>
      constructor
      · intro h r2 hr2
        unfold emailProcessorHandler at h
        cases hr : processQuoteRecord salesRepEmail senderEmail sendEmail r with
        | error e => rw [hr, error_bind] at h; exact absurd h (by simp)
        | ok u =>
        cases u
        rw [hr, ok_bind] at h
        try simp only [] at h
        rcases List.mem_cons.mp hr2 with rfl | hr2'
        · exact hr
        · exact ih.mp h r2 hr2'
      · intro hall
        unfold emailProcessorHandler
        rw [hall r (List.mem_cons_self r rest), ok_bind]
        try simp only []
        exact ih.mpr (fun r2 hr2 => hall r2 (List.mem_cons_of_mem _ hr2))
  · have haux : ∀ (pre : List SqsRecord) (r : SqsRecord) (post : List SqsRecord) (e : String),
        (∀ r2 ∈ pre, processQuoteRecord salesRepEmail senderEmail sendEmail r2 = .ok ()) →
        processQuoteRecord salesRepEmail senderEmail sendEmail r = .error e →
        emailProcessorHandler salesRepEmail senderEmail sendEmail (pre ++ r :: post) =
          .error e := by
      intro pre
      induction pre with
      | nil =>
        intro r post e hpre hr
        show (do
          (processQuoteRecord salesRepEmail senderEmail sendEmail r)
          emailProcessorHandler salesRepEmail senderEmail sendEmail post) = _
        rw [hr, error_bind]
      | cons p ps ih =>
        intro r post e hpre hr
        show (do
          (processQuoteRecord salesRepEmail senderEmail sendEmail p)
          emailProcessorHandler salesRepEmail senderEmail sendEmail (ps ++ r :: post)) = _
        rw [hpre p (List.mem_cons_self p ps), ok_bind]
        try simp only []
        exact ih r post e (fun r2 hr2 => hpre r2 (List.mem_cons_of_mem _ hr2)) hr
    intro pre r post e hrec hpre hr
    subst hrec
    exact haux pre r post e hpre hr
  · intro r e h
    unfold processQuoteRecord
    rw [h, error_bind]
  · intro r v e hp hg
    unfold processQuoteRecord
    rw [hp, ok_bind]
    try simp only []
    rw [hg, error_bind]

/-- Witness for claim C8: a single record whose body is not JSON makes the
whole handler end with the thrown SyntaxError. -/
theorem dispatcherPropagatesFailuresWitness :
    emailProcessorHandler "sales@example.com" "sender@example.com" (fun _ => .ok ())
      [⟨"not json"⟩] = .error "SyntaxError: Unexpected token in JSON" :=
  (dispatcherPropagatesFailures "sales@example.com" "sender@example.com"
      (fun _ => .ok ()) [⟨"not json"⟩]).2.1 [] ⟨"not json"⟩ [] _ rfl
    (fun r2 hr2 => absurd hr2 (List.not_mem_nil r2))
    ((dispatcherPropagatesFailures "sales@example.com" "sender@example.com"
      (fun _ => .ok ()) [⟨"not json"⟩]).2.2.1 ⟨"not json"⟩ _ rfl)

/-! ### Claim C10 -/

theorem invalidJson_only_on_parse_fail (qu : Option String)
    (send : SqsMessage → Except String Unit) (rb : Option String)
    (h : (apiHandler qu send rb).1 = invalidJsonResponse) :
    jsonParse (effectiveBody rb) = none := by
  cases hp : jsonParse (effectiveBody rb) with
  | none => rfl
  | some body =>
    exfalso
    cases hv : validatePayload body with
    | error e =>
      rw [apiHandler_of_attempt_error _ _ _ _ _
        (handlerAttempt_validate_throw _ _ _ _ _ hp hv)] at h
      exact absurd h (by simp [serverErrorResponse, invalidJsonResponse])
    | ok errs =>
      cases herrs : errs with
      | nil =>
        subst herrs
        have hem := contactEmailOf_of_valid body hv
        have hatt := handlerAttempt_valid qu send rb body _ _ hp hv hem rfl
        cases hsend : send ⟨qu, jsonStringify body, _⟩ with
        | ok u =>
          cases u
          rw [hsend] at hatt
          rw [apiHandler_of_attempt_ok _ _ _ _ _ hatt] at h
          exact absurd h (by simp [successResponse, invalidJsonResponse])
        | error e =>
          rw [hsend] at hatt
          rw [apiHandler_of_attempt_error _ _ _ _ _ hatt] at h
          exact absurd h (by simp [serverErrorResponse, invalidJsonResponse])
      | cons a l =>
        subst herrs
        rw [apiHandler_of_attempt_ok _ _ _ _ _
          (handlerAttempt_validation_fail _ _ _ _ _ hp hv (by simp))] at h
        exact absurd h (by simp [validationFailedResponse, invalidJsonResponse])

set_option maxRecDepth 4000 in
/-- Claim C10: an absent or empty raw body is treated as the empty JSON
object, yielding the 400 validation-failed response with the contactInfo,
quoteItems and agreedToContact errors; the 400 invalid-JSON response occurs
exactly for a present, non-empty body that fails to parse. -/
theorem emptyBodyTreatedAsEmptyObject (queueUrl : Option String)
    (sendMessage : SqsMessage → Except String Unit) :
    (apiHandler queueUrl sendMessage none).1 =
      validationFailedResponse ["contactInfo is required", "quoteItems must be an array",
        "agreedToContact must be true"] ∧
    (apiHandler queueUrl sendMessage (some "")).1 =
      validationFailedResponse ["contactInfo is required", "quoteItems must be an array",
        "agreedToContact must be true"] ∧
    (∀ s, (apiHandler queueUrl sendMessage (some s)).1 = invalidJsonResponse ↔
      (s ≠ "" ∧ jsonParse s = none)) := by
  refine ⟨?_, ?_, ?_⟩
  · rw [apiHandler_of_attempt_ok _ _ _ _ _
      (handlerAttempt_validation_fail queueUrl sendMessage none (.obj [])
        ["contactInfo is required", "quoteItems must be an array",
         "agreedToContact must be true"] rfl rfl (by simp))]
  · rw [apiHandler_of_attempt_ok _ _ _ _ _
      (handlerAttempt_validation_fail queueUrl sendMessage (some "") (.obj [])
        ["contactInfo is required", "quoteItems must be an array",
         "agreedToContact must be true"] rfl rfl (by simp))]
  · intro s
    constructor
    · intro h
      have hp := invalidJson_only_on_parse_fail _ _ _ h
      by_cases hs : s = ""
      · subst hs
        rw [show effectiveBody (some "") = "\x7b\x7d" from rfl] at hp
        exact absurd hp (by simp [jsonParse, parseVal, skipWs, isJsonWs, addField])
      · refine ⟨hs, ?_⟩
        rw [show effectiveBody (some s) = if s == "" then "\x7b\x7d" else s from rfl,
          if_neg (by simp [hs])] at hp
        exact hp
    · rintro ⟨hs, hp⟩
      have hpe : jsonParse (effectiveBody (some s)) = none := by
        rw [show effectiveBody (some s) = if s == "" then "\x7b\x7d" else s from rfl,
          if_neg (by simp [hs])]
        exact hp
      rw [apiHandler_of_attempt_ok _ _ _ _ _ (handlerAttempt_parse_fail _ _ _ hpe)]

/-! ### Claim C9 -/

set_option maxRecDepth 20000 in
set_option maxHeartbeats 2000000 in
/-- Claim C9: evaluation at the failing input.  For a payload whose items have
the declared QuoteItem shape (productName and quantity only), every rendered
entry shows the string undefined in the identifier slot — the renderer reads
item.itemNumber, a property the declared type does not have — so no index or
identifier of the item is displayed, while productName and quantity are. -/
theorem itemEntryShowsUndefinedIdentifier :
    ∃ c, generateEmailContent (exampleQuote 8).toJS = Except.ok c ∧
      strContains c.textBody "- [undefined] A: 3 pack(s)\n- [undefined] B: 5 pack(s)" = true ∧
      strContains c.textBody "- [0] A" = false ∧ strContains c.textBody "- [1] B" = false :=
  ⟨_, generateEmailContent_toJS (exampleQuote 8), rfl, rfl, rfl⟩

end ASD
